import Mathlib

/-!
Verification development for the personal tracking assistant.

Shallow embedding of the core pipeline:
* `database.py` — the record store (`Store`) with owner-scoped CRUD,
  day-range queries, the daily summary and the wellness context;
* `models.py` / `claude_client.py` — the classification oracle adapter
  (`classify_message`) with its pydantic-style field validation;
* `bot.py` / `webhook_bot.py` — the two intent routers (polling bot and
  webhook bot) as pure reply-building state transformers.

Python `float` values are modelled as `ℚ`; Python `round(x, n)` (banker's
rounding) is modelled as `roundHalfEven` on `ℚ`.  Timestamps are modelled
as integer microsecond ticks; `_start_of_day`/`_end_of_day` become
`startOfDay`/`endOfDay`, and the closed-interval ISO-string comparisons of
the source become closed integer-interval comparisons.  The Supabase
client is modelled as in-memory lists with insertion order; every
operation that calls `get_or_create_user` threads the store state, since
that call can create a profile row as a side effect.
-/

/-- Python `round` to an integer: round half to even (banker's rounding),
as used by `round(x, 1)` and `round(x, 0)` in the source. -/
def roundHalfEven (q : ℚ) : ℤ :=
  if q - ⌊q⌋ < 1/2 then ⌊q⌋
  else if 1/2 < q - ⌊q⌋ then ⌊q⌋ + 1
  else if ⌊q⌋ % 2 = 0 then ⌊q⌋ else ⌊q⌋ + 1

/-- Python `round(x, 1)` on the ideal rational value. -/
def pyRound1 (q : ℚ) : ℚ := (roundHalfEven (q * 10) : ℚ) / 10

/-- Python `round(x, 0)` on the ideal rational value. -/
def pyRound0 (q : ℚ) : ℚ := (roundHalfEven q : ℚ)

/-- Microsecond ticks per day; timestamps are integer ticks, matching the
microsecond resolution of `datetime` in the source. -/
def ticksPerDay : ℤ := 86400000000

/-- `_start_of_day`: the first instant of day `d`
(`datetime.combine(d, time.min)`). -/
def startOfDay (d : ℤ) : ℤ := d * ticksPerDay

/-- `_end_of_day`: the last representable instant of day `d`
(`datetime.combine(d, time.max)`). -/
def endOfDay (d : ℤ) : ℤ := d * ticksPerDay + (ticksPerDay - 1)

/-- The calendar day of a timestamp (`created_at[:10]` / `.date()` in the
source): floor division by the day length. -/
def tsDay (ts : ℤ) : ℤ := ts / ticksPerDay

/-- A row of the `users` table. -/
structure UserRow where
  id : ℕ
  telegram_id : ℤ
  current_weight : Option ℚ := none
  goal_weight : Option ℚ := none
  daily_calorie_target : Option ℤ := none
  protein_target : Option ℚ := none
  carbs_target : Option ℚ := none
  fat_target : Option ℚ := none
deriving DecidableEq, Repr

/-- A row of the `notes` table. -/
structure NoteRow where
  id : ℕ
  user_id : ℕ
  content : String
  summary : String
  tags : List String
  created_at : ℤ
deriving DecidableEq, Repr

/-- A row of the `food_logs` table. -/
structure FoodRow where
  id : ℕ
  user_id : ℕ
  food_description : String
  calories : ℤ
  protein : ℚ
  carbs : ℚ
  fat : ℚ
  created_at : ℤ
deriving DecidableEq, Repr

/-- A row of the `workouts` table. -/
structure WorkoutRow where
  id : ℕ
  user_id : ℕ
  activity_type : String
  duration_mins : ℤ
  distance_km : Option ℚ := none
  notes : Option String := none
  created_at : ℤ
deriving DecidableEq, Repr

/-- The record store: the four tables plus the id counter the database
assigns on insert.  Lists keep insertion order, which is the order an
unordered select returns. -/
structure Store where
  users : List UserRow := []
  notes : List NoteRow := []
  food_logs : List FoodRow := []
  workouts : List WorkoutRow := []
  next_id : ℕ := 0
deriving Repr

/-- Sort newest-first, as `.order("created_at", desc=True)` does. -/
def sortByCreatedDesc {α : Type} (created : α → ℤ) (l : List α) : List α :=
  l.mergeSort (fun a b => created b ≤ created a)

/-- `Database.get_or_create_user`: select by `telegram_id`; return the
first hit, else insert a fresh row whose only non-default field is
`daily_calorie_target = 2000`. -/
def Store.get_or_create_user (s : Store) (telegram_id : ℤ) : UserRow × Store :=
  match s.users.find? (fun u => u.telegram_id == telegram_id) with
  | some u => (u, s)
  | none =>
      let u : UserRow :=
        { id := s.next_id, telegram_id := telegram_id, daily_calorie_target := some 2000 }
      (u, { s with users := s.users ++ [u], next_id := s.next_id + 1 })

/-- `Database.insert_note`.  `now` is the creation timestamp the database
assigns. -/
def Store.insert_note (s : Store) (now : ℤ) (telegram_id : ℤ)
    (content summary : String) (tags : List String) : NoteRow × Store :=
  let (user, s1) := s.get_or_create_user telegram_id
  let note : NoteRow :=
    { id := s1.next_id, user_id := user.id, content := content,
      summary := summary, tags := tags, created_at := now }
  (note, { s1 with notes := s1.notes ++ [note], next_id := s1.next_id + 1 })

/-- `Database.get_notes_by_date_range`: owner filter plus closed day
interval, newest first. -/
def Store.get_notes_by_date_range (s : Store) (telegram_id : ℤ)
    (start_date end_date : ℤ) : List NoteRow × Store :=
  let (user, s1) := s.get_or_create_user telegram_id
  (sortByCreatedDesc (·.created_at)
    (s1.notes.filter (fun n =>
      n.user_id == user.id &&
      startOfDay start_date ≤ n.created_at && n.created_at ≤ endOfDay end_date)), s1)

/-- `Database.insert_food_log`. -/
def Store.insert_food_log (s : Store) (now : ℤ) (telegram_id : ℤ)
    (food_description : String) (calories : ℤ) (protein carbs fat : ℚ) :
    FoodRow × Store :=
  let (user, s1) := s.get_or_create_user telegram_id
  let row : FoodRow :=
    { id := s1.next_id, user_id := user.id, food_description := food_description,
      calories := calories, protein := protein, carbs := carbs, fat := fat,
      created_at := now }
  (row, { s1 with food_logs := s1.food_logs ++ [row], next_id := s1.next_id + 1 })

/-- The dict returned by `Database.get_daily_nutrition`. -/
structure DailyNutrition where
  total_calories : ℤ
  total_protein : ℚ
  total_carbs : ℚ
  total_fat : ℚ
  entry_count : ℕ
  entries : List FoodRow
deriving Repr

/-- `Database.get_daily_nutrition`: one-day closed interval, no ordering
clause in the source. -/
def Store.get_daily_nutrition (s : Store) (telegram_id : ℤ)
    (target_date : ℤ) : DailyNutrition × Store :=
  let (user, s1) := s.get_or_create_user telegram_id
  let logs := s1.food_logs.filter (fun r =>
    r.user_id == user.id &&
    startOfDay target_date ≤ r.created_at && r.created_at ≤ endOfDay target_date)
  ({ total_calories := (logs.map (·.calories)).sum,
     total_protein := (logs.map (·.protein)).sum,
     total_carbs := (logs.map (·.carbs)).sum,
     total_fat := (logs.map (·.fat)).sum,
     entry_count := logs.length,
     entries := logs }, s1)

/-- `Database.get_food_logs_by_date_range`. -/
def Store.get_food_logs_by_date_range (s : Store) (telegram_id : ℤ)
    (start_date end_date : ℤ) : List FoodRow × Store :=
  let (user, s1) := s.get_or_create_user telegram_id
  (sortByCreatedDesc (·.created_at)
    (s1.food_logs.filter (fun r =>
      r.user_id == user.id &&
      startOfDay start_date ≤ r.created_at && r.created_at ≤ endOfDay end_date)), s1)

/-- `Database.insert_workout`. -/
def Store.insert_workout (s : Store) (now : ℤ) (telegram_id : ℤ)
    (activity_type : String) (duration_mins : ℤ)
    (distance_km : Option ℚ) (wnotes : Option String) : WorkoutRow × Store :=
  let (user, s1) := s.get_or_create_user telegram_id
  let row : WorkoutRow :=
    { id := s1.next_id, user_id := user.id, activity_type := activity_type,
      duration_mins := duration_mins, distance_km := distance_km,
      notes := wnotes, created_at := now }
  (row, { s1 with workouts := s1.workouts ++ [row], next_id := s1.next_id + 1 })

/-- `Database.get_daily_workouts`: one-day closed interval, newest
first. -/
def Store.get_daily_workouts (s : Store) (telegram_id : ℤ)
    (target_date : ℤ) : List WorkoutRow × Store :=
  let (user, s1) := s.get_or_create_user telegram_id
  (sortByCreatedDesc (·.created_at)
    (s1.workouts.filter (fun w =>
      w.user_id == user.id &&
      startOfDay target_date ≤ w.created_at && w.created_at ≤ endOfDay target_date)), s1)

/-- `Database.get_workouts_by_date_range`. -/
def Store.get_workouts_by_date_range (s : Store) (telegram_id : ℤ)
    (start_date end_date : ℤ) : List WorkoutRow × Store :=
  let (user, s1) := s.get_or_create_user telegram_id
  (sortByCreatedDesc (·.created_at)
    (s1.workouts.filter (fun w =>
      w.user_id == user.id &&
      startOfDay start_date ≤ w.created_at && w.created_at ≤ endOfDay end_date)), s1)

/-- The `DailySummary` pydantic model. -/
structure DailySummary where
  date : ℤ
  total_calories : ℤ
  total_protein : ℚ
  total_carbs : ℚ
  total_fat : ℚ
  calories_target : Option ℤ
  calories_remaining : Option ℤ
  food_entries : ℕ
  workout_count : ℕ
  workout_minutes : ℤ
  notes_count : ℕ
deriving Repr

/-- `Database.get_daily_summary`.  The single behavioural subtlety is the
Python truthiness test `if calories_target` guarding
`calories_remaining`: both `None` and `0` are falsy, so a stored target
of `0` also yields `calories_remaining = None`. -/
def Store.get_daily_summary (s : Store) (telegram_id : ℤ)
    (target_date : ℤ) : DailySummary × Store :=
  let (user, s1) := s.get_or_create_user telegram_id
  let (nutrition, s2) := s1.get_daily_nutrition telegram_id target_date
  let (workouts, s3) := s2.get_daily_workouts telegram_id target_date
  let notesCount :=
    (s3.notes.filter (fun n =>
      n.user_id == user.id &&
      startOfDay target_date ≤ n.created_at && n.created_at ≤ endOfDay target_date)).length
  let calories_target := user.daily_calorie_target
  let calories_remaining :=
    match calories_target with
    | some t => if t = 0 then none else some (t - nutrition.total_calories)
    | none => none
  ({ date := target_date,
     total_calories := nutrition.total_calories,
     total_protein := pyRound1 nutrition.total_protein,
     total_carbs := pyRound1 nutrition.total_carbs,
     total_fat := pyRound1 nutrition.total_fat,
     calories_target := calories_target,
     calories_remaining := calories_remaining,
     food_entries := nutrition.entry_count,
     workout_count := workouts.length,
     workout_minutes := (workouts.map (·.duration_mins)).sum,
     notes_count := notesCount }, s3)

/-- The dict update step of the `daily_nutrition` grouping loop in
`get_wellness_context`: add `c` calories under day key `d`, updating the
existing bucket if the key is present (Python dict assignment) and
appending a new bucket at the end otherwise (Python dict insertion
order).  Only the calorie field of the bucket is modelled; the macro
fields are aggregated identically and no claim mentions them. -/
def bumpDay : List (ℤ × ℤ) → ℤ → ℤ → List (ℤ × ℤ)
  | [], d, c => [(d, c)]
  | kv :: rest, d, c =>
      if kv.1 == d then (kv.1, kv.2 + c) :: rest else kv :: bumpDay rest d c

/-- The `daily_nutrition` grouping loop of `get_wellness_context`: fold
the window's food logs into per-day calorie buckets keyed by the
calendar day of `created_at`. -/
def groupByDay (logs : List FoodRow) : List (ℤ × ℤ) :=
  logs.foldl (fun acc r => bumpDay acc (tsDay r.created_at) r.calories) []

/-- The `totals` block of `Database.get_wellness_context`:
`avg_daily_kcal = round(sum(day calories) / max(number of day buckets, 1), 0)`. -/
structure WellnessTotals where
  food_entries : ℕ
  avg_daily_kcal : ℚ
deriving Repr

/-- `Database.get_wellness_context`, restricted to the fields the claims
are about: the window is the trailing `days` days ending today, and the
average divides by the number of day buckets (days with at least one
food entry), clamped to at least 1. -/
def Store.get_wellness_totals (s : Store) (telegram_id : ℤ)
    (days : ℤ) (today : ℤ) : WellnessTotals × Store :=
  let start := today - (days - 1)
  let (food_logs, s1) := s.get_food_logs_by_date_range telegram_id start today
  let buckets := groupByDay food_logs
  ({ food_entries := food_logs.length,
     avg_daily_kcal :=
       pyRound0 (((buckets.map (·.2)).sum : ℚ) / (max buckets.length 1 : ℕ)) }, s1)

/-- `Database.delete_note`: delete rows matching both the record id and
the caller's resolved profile id; report whether anything was removed. -/
def Store.delete_note (s : Store) (telegram_id : ℤ) (note_id : ℕ) :
    Bool × Store :=
  let (user, s1) := s.get_or_create_user telegram_id
  let hit := fun (n : NoteRow) => n.id == note_id && n.user_id == user.id
  ((s1.notes.filter hit).length > 0,
   { s1 with notes := s1.notes.filter (fun n => !(hit n)) })

/-- `Database.delete_food_log`. -/
def Store.delete_food_log (s : Store) (telegram_id : ℤ) (food_id : ℕ) :
    Bool × Store :=
  let (user, s1) := s.get_or_create_user telegram_id
  let hit := fun (r : FoodRow) => r.id == food_id && r.user_id == user.id
  ((s1.food_logs.filter hit).length > 0,
   { s1 with food_logs := s1.food_logs.filter (fun r => !(hit r)) })

/-- `Database.delete_workout`. -/
def Store.delete_workout (s : Store) (telegram_id : ℤ) (workout_id : ℕ) :
    Bool × Store :=
  let (user, s1) := s.get_or_create_user telegram_id
  let hit := fun (w : WorkoutRow) => w.id == workout_id && w.user_id == user.id
  ((s1.workouts.filter hit).length > 0,
   { s1 with workouts := s1.workouts.filter (fun w => !(hit w)) })

/-- The value space `json.loads` can return: JSON values. -/
inductive JsonVal where
  | jnull : JsonVal
  | jbool : Bool → JsonVal
  | jnum : ℚ → JsonVal
  | jstr : String → JsonVal
  | jarr : List JsonVal → JsonVal
  | jobj : List (String × JsonVal) → JsonVal

/-- Outcome of `json.loads` on the (fence-stripped) oracle response:
either a decode failure or a JSON value. -/
inductive OracleResponse where
  | unparseable : OracleResponse
  | parsed : JsonVal → OracleResponse

/-- `dict.get(key)` on a parsed JSON object. -/
def getField (fields : List (String × JsonVal)) (k : String) : Option JsonVal :=
  (fields.find? (fun kv => kv.1 == k)).map (·.2)

/-- Whether a JSON value is an object — only objects support the
`data.get("type")` attribute access in `classify_message`. -/
def JsonVal.isObj : JsonVal → Bool
  | .jobj _ => true
  | _ => false

/-- `models.QuestionData`. -/
structure QuestionData where
  confidence : ℚ
  answer : String
deriving DecidableEq, Repr

/-- `models.NoteData`. -/
structure NoteData where
  confidence : ℚ
  content : String
  summary : String
  tags : List String
deriving DecidableEq, Repr

/-- `models.FoodData` (macros already rounded by its field validator). -/
structure FoodData where
  confidence : ℚ
  food_description : String
  calories : ℤ
  protein : ℚ
  carbs : ℚ
  fat : ℚ
deriving DecidableEq, Repr

/-- `models.WorkoutData`. -/
structure WorkoutData where
  confidence : ℚ
  activity_type : String
  duration_mins : ℤ
  distance_km : Option ℚ
  notes : Option String
deriving DecidableEq, Repr

/-- `models.ClassifiedMessage`, the four-way tagged union. -/
inductive ClassifiedMessage where
  | question : QuestionData → ClassifiedMessage
  | note : NoteData → ClassifiedMessage
  | food : FoodData → ClassifiedMessage
  | workout : WorkoutData → ClassifiedMessage
deriving DecidableEq, Repr

/-- An optional numeric field (`Optional[float]` in pydantic): absent or
null is `none`; a number passes through; anything else is a type error. -/
def optNum : Option JsonVal → Option (Option ℚ)
  | none => some none
  | some .jnull => some none
  | some (.jnum q) => some (some q)
  | _ => none

/-- An optional string field (`Optional[str]`). -/
def optStr : Option JsonVal → Option (Option String)
  | none => some none
  | some .jnull => some none
  | some (.jstr s) => some (some s)
  | _ => none

/-- A `List[str]` field with `default_factory=list`: absent means `[]`;
an array must contain only strings. -/
def strListField : Option JsonVal → Option (List String)
  | none => some []
  | some (.jarr xs) =>
      xs.mapM (fun v => match v with | .jstr s => some s | _ => none)
  | _ => none

/-- `QuestionData(**data)`: confidence in `[0,1]`, non-empty answer. -/
def QuestionData.validate (fields : List (String × JsonVal)) :
    Option QuestionData :=
  match getField fields "confidence", getField fields "answer" with
  | some (.jnum conf), some (.jstr ans) =>
      if 0 ≤ conf ∧ conf ≤ 1 ∧ 1 ≤ ans.length then
        some { confidence := conf, answer := ans }
      else none
  | _, _ => none

/-- `NoteData(**data)`: confidence, non-empty content and summary, tag
list defaulting to empty. -/
def NoteData.validate (fields : List (String × JsonVal)) :
    Option NoteData :=
  match getField fields "confidence", getField fields "content",
        getField fields "summary", strListField (getField fields "tags") with
  | some (.jnum conf), some (.jstr content), some (.jstr summary), some tags =>
      if 0 ≤ conf ∧ conf ≤ 1 ∧ 1 ≤ content.length ∧ 1 ≤ summary.length then
        some { confidence := conf, content := content, summary := summary, tags := tags }
      else none
  | _, _, _, _ => none

/-- `FoodData(**data)`: confidence, non-empty description, integer
calories ≥ 0, macros ≥ 0; the field validator then rounds each macro to
one decimal place. -/
def FoodData.validate (fields : List (String × JsonVal)) :
    Option FoodData :=
  match getField fields "confidence", getField fields "food_description",
        getField fields "calories", getField fields "protein",
        getField fields "carbs", getField fields "fat" with
  | some (.jnum conf), some (.jstr desc), some (.jnum cal),
    some (.jnum p), some (.jnum c), some (.jnum f) =>
      if 0 ≤ conf ∧ conf ≤ 1 ∧ 1 ≤ desc.length ∧
         cal.den = 1 ∧ 0 ≤ cal ∧ 0 ≤ p ∧ 0 ≤ c ∧ 0 ≤ f then
        some { confidence := conf, food_description := desc, calories := cal.num,
               protein := pyRound1 p, carbs := pyRound1 c, fat := pyRound1 f }
      else none
  | _, _, _, _, _, _ => none

/-- `WorkoutData(**data)`: confidence, non-empty activity, integer
duration ≥ 1, optional distance ≥ 0, optional notes. -/
def WorkoutData.validate (fields : List (String × JsonVal)) :
    Option WorkoutData :=
  match getField fields "confidence", getField fields "activity_type",
        getField fields "duration_mins",
        optNum (getField fields "distance_km"),
        optStr (getField fields "notes") with
  | some (.jnum conf), some (.jstr act), some (.jnum dur), some dist, some wnotes =>
      if 0 ≤ conf ∧ conf ≤ 1 ∧ 1 ≤ act.length ∧
         dur.den = 1 ∧ 1 ≤ dur ∧ (∀ q ∈ dist, 0 ≤ q) then
        some { confidence := conf, activity_type := act, duration_mins := dur.num,
               distance_km := dist, notes := wnotes }
      else none
  | _, _, _, _, _ => none

/-- The failure modes of `ClaudeClient.classify_message`:
* `invalidJson` — the explicit `ValueError("Claude returned invalid
  JSON: …")` raised when `json.loads` fails (the spec's
  `ClassificationParseError`);
* `unknownType t` — the explicit `ValueError("Unknown type: …")` raised
  when the `type` discriminator (carried here) is absent or not one of
  the four recognized strings (the spec's
  `ClassificationUnknownTypeError`);
* `validationFailed` — a pydantic `ValidationError` from one of the four
  model constructors (the spec's `ClassificationSchemaError`);
* `attributeAccessFailed` — the `AttributeError` raised by
  `data.get("type")` when `json.loads` returns a non-object (list,
  string, number, boolean or null), which is none of the three declared
  error classes. -/
inductive ClassifyError where
  | invalidJson : ClassifyError
  | unknownType : Option JsonVal → ClassifyError
  | validationFailed : ClassifyError
  | attributeAccessFailed : ClassifyError

/-- `ClaudeClient.classify_message`, from the `json.loads` outcome on. -/
def classify_message : OracleResponse → Except ClassifyError ClassifiedMessage
  | .unparseable => .error .invalidJson
  | .parsed v =>
    match v with
    | .jobj fields =>
      match getField fields "type" with
      | some (.jstr "question") =>
          match QuestionData.validate fields with
          | some d => .ok (.question d)
          | none => .error .validationFailed
      | some (.jstr "note") =>
          match NoteData.validate fields with
          | some d => .ok (.note d)
          | none => .error .validationFailed
      | some (.jstr "food") =>
          match FoodData.validate fields with
          | some d => .ok (.food d)
          | none => .error .validationFailed
      | some (.jstr "workout") =>
          match WorkoutData.validate fields with
          | some d => .ok (.workout d)
          | none => .error .validationFailed
      | t => .error (.unknownType t)
    | _ => .error .attributeAccessFailed

/-- Whether the `type` discriminator value is one of the four recognized
values (`question`, `note`, `food`, `workout` as JSON strings). -/
def recognizedType : Option JsonVal → Bool
  | some (.jstr "question") => true
  | some (.jstr "note") => true
  | some (.jstr "food") => true
  | some (.jstr "workout") => true
  | _ => false

/-- Spec wording of a valid Question payload: confidence in `[0,1]` and
a non-empty answer string. -/
def QuestionPayloadValid (fields : List (String × JsonVal)) : Prop :=
  ∃ (conf : ℚ) (ans : String),
    getField fields "confidence" = some (.jnum conf) ∧
    getField fields "answer" = some (.jstr ans) ∧
    0 ≤ conf ∧ conf ≤ 1 ∧ 1 ≤ ans.length

/-- Spec wording of a valid Note payload: confidence, non-empty content
and summary, tag list (possibly absent, defaulting to empty). -/
def NotePayloadValid (fields : List (String × JsonVal)) : Prop :=
  ∃ (conf : ℚ) (content summary : String) (tags : List String),
    getField fields "confidence" = some (.jnum conf) ∧
    getField fields "content" = some (.jstr content) ∧
    getField fields "summary" = some (.jstr summary) ∧
    strListField (getField fields "tags") = some tags ∧
    0 ≤ conf ∧ conf ≤ 1 ∧ 1 ≤ content.length ∧ 1 ≤ summary.length

/-- Spec wording of a valid Food payload: confidence, non-empty
description, integer calories ≥ 0, macros ≥ 0. -/
def FoodPayloadValid (fields : List (String × JsonVal)) : Prop :=
  ∃ (conf cal p c f : ℚ) (desc : String),
    getField fields "confidence" = some (.jnum conf) ∧
    getField fields "food_description" = some (.jstr desc) ∧
    getField fields "calories" = some (.jnum cal) ∧
    getField fields "protein" = some (.jnum p) ∧
    getField fields "carbs" = some (.jnum c) ∧
    getField fields "fat" = some (.jnum f) ∧
    0 ≤ conf ∧ conf ≤ 1 ∧ 1 ≤ desc.length ∧
    cal.den = 1 ∧ 0 ≤ cal ∧ 0 ≤ p ∧ 0 ≤ c ∧ 0 ≤ f

/-- Spec wording of a valid Workout payload: confidence, non-empty
activity label, integer duration ≥ 1, optional distance ≥ 0, optional
free-text note. -/
def WorkoutPayloadValid (fields : List (String × JsonVal)) : Prop :=
  ∃ (conf dur : ℚ) (act : String) (dist : Option ℚ) (wnotes : Option String),
    getField fields "confidence" = some (.jnum conf) ∧
    getField fields "activity_type" = some (.jstr act) ∧
    getField fields "duration_mins" = some (.jnum dur) ∧
    optNum (getField fields "distance_km") = some dist ∧
    optStr (getField fields "notes") = some wnotes ∧
    0 ≤ conf ∧ conf ≤ 1 ∧ 1 ≤ act.length ∧
    dur.den = 1 ∧ 1 ≤ dur ∧ (∀ q ∈ dist, 0 ≤ q)

/-- Does one character list start with another (plain `BEq` version,
used by the substring check)? -/
def startsWithChars : List Char → List Char → Bool
  | [], _ => true
  | _ :: _, [] => false
  | p :: ps, c :: cs => p == c && startsWithChars ps cs

/-- `pat` occurs as a contiguous substring of `s`. -/
def containsSubstr (s pat : String) : Bool :=
  s.data.tails.any (fun t => startsWithChars pat.data t)

/-- Render a one-decimal nonnegative rational the way Python renders the
corresponding float (`10` → `"10.0"`, `16.5` → `"16.5"`): used only for
the macro slots of the reply strings. -/
def decStr1 (q : ℚ) : String :=
  let n : ℤ := (q * 10).num
  toString (n / 10) ++ "." ++ toString (n % 10).natAbs

/-- An outbound chat message: the text and whether it is sent with the
Markdown parse mode (`md` flag of `_send`). -/
structure OutMsg where
  text : String
  markdown : Bool
deriving DecidableEq, Repr

/-- The question branch shared by both routers (`bot.handle_message` and
`webhook_bot._handle_text`): reply `"💬 " + answer` with `md=False`, no
store operation of any kind. -/
def handle_question (s : Store) (d : QuestionData) : OutMsg × Store :=
  ({ text := "💬 " ++ d.answer, markdown := false }, s)

/-- The food branch of `bot.handle_message` (polling bot): insert, then
re-read today's nutrition; the confirmation shows the day's total and
entry count only — no comparison against the profile targets. -/
def bot_handle_food (s : Store) (now : ℤ) (telegram_id : ℤ) (d : FoodData) :
    OutMsg × Store :=
  let (_, s1) := s.insert_food_log now telegram_id d.food_description
      d.calories d.protein d.carbs d.fat
  let (nutrition, s2) := s1.get_daily_nutrition telegram_id (tsDay now)
  ({ text :=
      "🍽️ *Logged:* " ++ d.food_description ++ "\n\n• " ++
      toString d.calories ++ " kcal\n• Protein: " ++ decStr1 d.protein ++
      "g · Carbs: " ++ decStr1 d.carbs ++ "g · Fat: " ++ decStr1 d.fat ++
      "g\n\n*Today's total:* " ++ toString nutrition.total_calories ++
      " kcal (" ++ toString nutrition.entry_count ++ " entries)",
     markdown := true }, s2)

/-- `user.has_macro_targets()` under Python truthiness: all three macro
targets present and nonzero (`all([...])` treats `0.0` as falsy). -/
def hasAllGramTargets (u : UserRow) : Bool :=
  match u.protein_target, u.carbs_target, u.fat_target with
  | some p, some c, some f => !(p == 0) && !(c == 0) && !(f == 0)
  | _, _, _ => false

/-- The calorie-target line of the webhook food confirmation:
`" / {target} ({abs(rem)} left|over ⚠️)"`. -/
def calorieTargetLine (target total : ℤ) : String :=
  let rem := target - total
  " / " ++ toString target ++ " (" ++ toString rem.natAbs ++
  (if 0 ≤ rem then " left)" else " over ⚠️)")

/-- One macro line of the webhook food confirmation, e.g.
`"P: 10.0g / 150.0g (140.0g left)"`. -/
def gramLine (label : String) (total target : ℚ) : String :=
  let rem := pyRound1 (target - total)
  label ++ ": " ++ decStr1 total ++ "g / " ++ decStr1 target ++ "g (" ++
  (if rem ≤ 0 then "✅" else decStr1 rem ++ "g left") ++ ")"

/-- The food branch of `webhook_bot._handle_text`: insert, re-read
today's nutrition and the profile, then build the confirmation with the
running total compared against the calorie target (when truthy) and the
macro targets (when all set). -/
def webhook_handle_food (s : Store) (now : ℤ) (telegram_id : ℤ) (d : FoodData) :
    OutMsg × Store :=
  let (_, s1) := s.insert_food_log now telegram_id d.food_description
      d.calories d.protein d.carbs d.fat
  let (nutrition, s2) := s1.get_daily_nutrition telegram_id (tsDay now)
  let (user, s3) := s2.get_or_create_user telegram_id
  let base :=
    "🍽️ *Logged:* " ++ d.food_description ++ "\n\n• " ++
    toString d.calories ++ " kcal | P:" ++ decStr1 d.protein ++
    "g C:" ++ decStr1 d.carbs ++ "g F:" ++ decStr1 d.fat ++
    "g\n\n*Today so far:* " ++ toString nutrition.total_calories ++ " kcal"
  let withTarget :=
    match user.daily_calorie_target with
    | some t => if t = 0 then base
                else base ++ calorieTargetLine t nutrition.total_calories
    | none => base
  let withMacros :=
    match user.protein_target, user.carbs_target, user.fat_target with
    | some pt, some ct, some ft =>
        if hasAllGramTargets user then
          withTarget ++ "\n" ++ gramLine "P" nutrition.total_protein pt ++
          "\n" ++ gramLine "C" nutrition.total_carbs ct ++
          "\n" ++ gramLine "F" nutrition.total_fat ft ++
          "\n\n_Use /recommend for what to eat next_"
        else withTarget
    | _, _, _ => withTarget
  ({ text := withMacros, markdown := true }, s3)

/-! ### Shared lemmas -/

theorem mem_sortByCreatedDesc {α : Type} (created : α → ℤ) (l : List α) (a : α) :
    a ∈ sortByCreatedDesc created l ↔ a ∈ l := by
  simp [sortByCreatedDesc, List.mem_mergeSort]

theorem tsDay_eq_iff (ts d : ℤ) :
    tsDay ts = d ↔ startOfDay d ≤ ts ∧ ts ≤ endOfDay d := by
  simp only [tsDay, startOfDay, endOfDay, ticksPerDay]
  omega

theorem startsWithChars_self_append (p rest : List Char) :
    startsWithChars p (p ++ rest) = true := by
  induction p with
  | nil => simp [startsWithChars]
  | cons c cs ih => simp [startsWithChars, ih]

theorem containsSubstr_of_append (a pat b : String) :
    containsSubstr (a ++ pat ++ b) pat = true := by
  unfold containsSubstr
  rw [List.any_eq_true]
  refine ⟨pat.data ++ b.data, ?_, ?_⟩
  · rw [List.mem_tails, String.data_append, String.data_append]
    exact ⟨a.data, by simp⟩
  · exact startsWithChars_self_append pat.data b.data

theorem roundHalfEven_abs_le (q : ℚ) : |(roundHalfEven q : ℚ) - q| ≤ 1/2 := by
  unfold roundHalfEven
  have h0 : (⌊q⌋ : ℚ) ≤ q := Int.floor_le q
  have h1 : q < (⌊q⌋ : ℚ) + 1 := Int.lt_floor_add_one q
  split
  · rename_i h
    rw [abs_sub_le_iff]
    constructor <;> [linarith; linarith]
  · split
    · rename_i h h'
      push_cast
      rw [abs_sub_le_iff]
      constructor <;> [linarith; linarith]
    · split
      · rename_i h h' _
        rw [abs_sub_le_iff]
        constructor <;> [linarith; linarith]
      · rename_i h h' _
        push_cast
        rw [abs_sub_le_iff]
        constructor <;> [linarith; linarith]

theorem pyRound1_abs_le (q : ℚ) : |pyRound1 q - q| ≤ 1/20 := by
  unfold pyRound1
  have h := roundHalfEven_abs_le (q * 10)
  have e : (roundHalfEven (q * 10) : ℚ)/10 - q = ((roundHalfEven (q * 10) : ℚ) - q * 10)/10 := by
    ring
  rw [e, abs_div, abs_of_pos (show (0:ℚ) < 10 by norm_num),
    div_le_iff₀ (show (0:ℚ) < 10 by norm_num)]
  linarith

theorem pyRound1_one_decimal (q : ℚ) : (pyRound1 q * 10).den = 1 := by
  unfold pyRound1
  rw [div_mul_cancel₀ _ (show (10:ℚ) ≠ 0 by norm_num)]
  exact Rat.den_intCast _

theorem get_or_create_user_of_found (s : Store) (tid : ℤ) (u : UserRow)
    (h : s.users.find? (fun r => r.telegram_id == tid) = some u) :
    s.get_or_create_user tid = (u, s) := by
  unfold Store.get_or_create_user
  rw [h]

theorem get_or_create_user_find_after (s : Store) (tid : ℤ) :
    ((s.get_or_create_user tid).2).users.find? (fun r => r.telegram_id == tid) =
      some ((s.get_or_create_user tid).1) := by
  unfold Store.get_or_create_user
  cases h : s.users.find? (fun r => r.telegram_id == tid) with
  | some u => simpa using h
  | none => simp [List.find?_append, h, List.find?]

theorem get_or_create_user_idem (s : Store) (tid : ℤ) :
    ((s.get_or_create_user tid).2).get_or_create_user tid =
      ((s.get_or_create_user tid).1, (s.get_or_create_user tid).2) :=
  get_or_create_user_of_found _ _ _ (get_or_create_user_find_after s tid)

/-! ### Claims -/

/-- C10: for every owner id that already has a stored profile row,
`get_or_create_user` performs no insert or update and returns the stored
row with all fields unchanged; repeated calls are idempotent, so lazy
profile creation never overwrites fields the user has previously set. -/
theorem c10_get_or_create_user_idempotent (s : Store) (tid : ℤ) (u : UserRow)
    (h : s.users.find? (fun r => r.telegram_id == tid) = some u) :
    s.get_or_create_user tid = (u, s) ∧
    ((s.get_or_create_user tid).2).get_or_create_user tid = (u, s) := by
  have h1 := get_or_create_user_of_found s tid u h
  exact ⟨h1, by rw [h1, h1]⟩

/-- Witness for C10 at a concrete store holding one profile row with
previously set weight and calorie target. -/
theorem c10_get_or_create_user_idempotent_witness :
    (Store.get_or_create_user
      { users := [{ id := 5, telegram_id := 42, current_weight := some 70,
                    daily_calorie_target := some 1800 }], next_id := 6 } 42) =
      ({ id := 5, telegram_id := 42, current_weight := some 70,
         daily_calorie_target := some 1800 },
       { users := [{ id := 5, telegram_id := 42, current_weight := some 70,
                     daily_calorie_target := some 1800 }], next_id := 6 }) :=
  (c10_get_or_create_user_idempotent
    { users := [{ id := 5, telegram_id := 42, current_weight := some 70,
                  daily_calorie_target := some 1800 }], next_id := 6 } 42
    { id := 5, telegram_id := 42, current_weight := some 70,
      daily_calorie_target := some 1800 } rfl).1

/-- C8: every loggable insert resolves the owner first; with no stored
profile a row with default calorie target 2000 is created before the
record write, and the written record references that new profile id;
with an existing profile the users table is untouched, so at most one
profile per owner id is preserved under sequential operation. -/
theorem c8_lazy_profile_creation (s : Store) (now tid : ℤ)
    (content summary : String) (tags : List String)
    (desc : String) (cal : ℤ) (p c f : ℚ) (act : String) (dur : ℤ) :
    (s.users.find? (fun r => r.telegram_id == tid) = none →
      ((s.insert_note now tid content summary tags).2.users =
          s.users ++ [{ id := s.next_id, telegram_id := tid,
                        daily_calorie_target := some 2000 }] ∧
        (s.insert_note now tid content summary tags).1.user_id = s.next_id) ∧
      ((s.insert_food_log now tid desc cal p c f).2.users =
          s.users ++ [{ id := s.next_id, telegram_id := tid,
                        daily_calorie_target := some 2000 }] ∧
        (s.insert_food_log now tid desc cal p c f).1.user_id = s.next_id) ∧
      ((s.insert_workout now tid act dur none none).2.users =
          s.users ++ [{ id := s.next_id, telegram_id := tid,
                        daily_calorie_target := some 2000 }] ∧
        (s.insert_workout now tid act dur none none).1.user_id = s.next_id) ∧
      ((s.insert_note now tid content summary tags).2.users.filter
          (fun r => r.telegram_id == tid)).length = 1) ∧
    (∀ u, s.users.find? (fun r => r.telegram_id == tid) = some u →
      (s.insert_note now tid content summary tags).2.users = s.users ∧
      (s.insert_food_log now tid desc cal p c f).2.users = s.users ∧
      (s.insert_workout now tid act dur none none).2.users = s.users) := by
  constructor
  · intro h
    have hnil : s.users.filter (fun r => r.telegram_id == tid) = [] := by
      rw [List.filter_eq_nil_iff]
      intro a ha
      exact List.find?_eq_none.mp h a ha
    refine ⟨?_, ?_, ?_, ?_⟩ <;>
      simp [Store.insert_note, Store.insert_food_log, Store.insert_workout,
            Store.get_or_create_user, h, List.filter_append, hnil]
  · intro u hu
    refine ⟨?_, ?_, ?_⟩ <;>
      simp [Store.insert_note, Store.insert_food_log, Store.insert_workout,
            Store.get_or_create_user, hu]

/-- Witness for C8: creation on an empty store, preservation on a store
that already holds the owner's profile. -/
theorem c8_lazy_profile_creation_witness :
    ((({} : Store).insert_note 0 7 "call dentist" "dentist" []).2.users =
        [{ id := 0, telegram_id := 7, daily_calorie_target := some 2000 }] ∧
      (({} : Store).insert_note 0 7 "call dentist" "dentist" []).1.user_id = 0) ∧
    (({ users := [{ id := 3, telegram_id := 7, daily_calorie_target := some 1500 }],
        next_id := 4 } : Store).insert_note 0 7 "x" "x" []).2.users =
      [{ id := 3, telegram_id := 7, daily_calorie_target := some 1500 }] := by
  refine ⟨?_, ?_⟩
  · have h := (c8_lazy_profile_creation {} 0 7 "call dentist" "dentist" []
      "" 0 0 0 0 "" 0).1 rfl
    exact ⟨by simpa using h.1.1, h.1.2⟩
  · exact ((c8_lazy_profile_creation
      { users := [{ id := 3, telegram_id := 7, daily_calorie_target := some 1500 }],
        next_id := 4 } 0 7 "x" "x" [] "" 0 0 0 0 "" 0).2
      { id := 3, telegram_id := 7, daily_calorie_target := some 1500 } rfl).1

theorem get_or_create_user_notes (s : Store) (tid : ℤ) :
    ((s.get_or_create_user tid).2).notes = s.notes := by
  unfold Store.get_or_create_user
  cases s.users.find? (fun r => r.telegram_id == tid) <;> rfl

theorem get_or_create_user_food_logs (s : Store) (tid : ℤ) :
    ((s.get_or_create_user tid).2).food_logs = s.food_logs := by
  unfold Store.get_or_create_user
  cases s.users.find? (fun r => r.telegram_id == tid) <;> rfl

theorem get_or_create_user_workouts (s : Store) (tid : ℤ) :
    ((s.get_or_create_user tid).2).workouts = s.workouts := by
  unfold Store.get_or_create_user
  cases s.users.find? (fun r => r.telegram_id == tid) <;> rfl

theorem removeMatching_spec {α : Type} (l : List α) (hit : α → Bool) :
    ((∀ a ∈ l, hit a = false) →
        (l.filter hit).length = 0 ∧ l.filter (fun a => !hit a) = l) ∧
    ((∃ a ∈ l, hit a = true) → 0 < (l.filter hit).length) ∧
    (∀ a ∈ l, a ∉ l.filter (fun a => !hit a) → hit a = true) ∧
    ((l.filter (fun a => !hit a)).filter hit).length = 0 := by
  refine ⟨?_, ?_, ?_, ?_⟩
  · intro h
    constructor
    · simp only [List.length_eq_zero, List.filter_eq_nil_iff]
      intro a ha
      simp [h a ha]
    · rw [List.filter_eq_self]
      intro a ha
      simp [h a ha]
  · rintro ⟨a, ha, hhit⟩
    rw [List.length_pos]
    intro hnil
    exact absurd hhit (by simpa using List.filter_eq_nil_iff.mp hnil a ha)
  · intro a ha hnot
    by_contra hfalse
    exact hnot (List.mem_filter.mpr ⟨ha, by simp [Bool.not_eq_true] at hfalse ⊢; simp [hfalse]⟩)
  · simp only [List.length_eq_zero, List.filter_filter, List.filter_eq_nil_iff]
    intro a ha
    simp

theorem delete_note_ownership (s : Store) (tid : ℤ) (rid : ℕ) :
    ((∀ n ∈ s.notes, ¬(n.id = rid ∧ n.user_id = (s.get_or_create_user tid).1.id)) →
      (s.delete_note tid rid).1 = false ∧ (s.delete_note tid rid).2.notes = s.notes) ∧
    ((∃ n ∈ s.notes, n.id = rid ∧ n.user_id = (s.get_or_create_user tid).1.id) →
      (s.delete_note tid rid).1 = true) ∧
    (∀ n ∈ s.notes, n ∉ (s.delete_note tid rid).2.notes →
      n.id = rid ∧ n.user_id = (s.get_or_create_user tid).1.id) ∧
    ((s.delete_note tid rid).2.delete_note tid rid).1 = false := by
  rcases hg : s.get_or_create_user tid with ⟨u, s1⟩
  have hn : s1.notes = s.notes := by
    have h := get_or_create_user_notes s tid
    rw [hg] at h
    exact h
  have hfind : s1.users.find? (fun r => r.telegram_id == tid) = some u := by
    have h := get_or_create_user_find_after s tid
    rw [hg] at h
    exact h
  have hfst : (s.delete_note tid rid).1 =
      decide (0 < (s.notes.filter (fun n => n.id == rid && n.user_id == u.id)).length) := by
    unfold Store.delete_note
    rw [hg]
    simp [hn, GT.gt]
  have hsnd_notes : (s.delete_note tid rid).2.notes =
      s.notes.filter (fun n => !(n.id == rid && n.user_id == u.id)) := by
    unfold Store.delete_note
    rw [hg]
    simp [hn]
  have hsnd_users : (s.delete_note tid rid).2.users = s1.users := by
    unfold Store.delete_note
    rw [hg]
  obtain ⟨g1, g2, g3, g4⟩ :=
    removeMatching_spec s.notes (fun n => n.id == rid && n.user_id == u.id)
  refine ⟨?_, ?_, ?_, ?_⟩
  · intro hnone
    have hall : ∀ n ∈ s.notes, (n.id == rid && n.user_id == u.id) = false := by
      intro n hmem
      have hne := hnone n hmem
      simpa [Bool.and_eq_true, not_and] using hne
    obtain ⟨hlen, hkeep⟩ := g1 hall
    rw [hfst, hsnd_notes]
    exact ⟨by simp [hlen], hkeep⟩
  · intro hex
    have hx : ∃ n ∈ s.notes, (n.id == rid && n.user_id == u.id) = true := by
      obtain ⟨n, hmem, hp⟩ := hex
      exact ⟨n, hmem, by simp [hp.1]; simpa using hp.2⟩
    rw [hfst]
    simpa using g2 hx
  · intro n hmem hnot
    rw [hsnd_notes] at hnot
    simpa using g3 n hmem hnot
  · have key : ∀ t : Store, t.get_or_create_user tid = (u, t) →
        (t.delete_note tid rid).1 = decide (0 <
          (t.notes.filter (fun n => n.id == rid && n.user_id == u.id)).length) := by
      intro t hgt
      unfold Store.delete_note
      rw [hgt]
    have hfind2 : (s.delete_note tid rid).2.users.find?
        (fun r => r.telegram_id == tid) = some u := by
      rw [hsnd_users]
      exact hfind
    rw [key _ (get_or_create_user_of_found _ tid u hfind2), hsnd_notes]
    simp [g4]

theorem delete_food_log_ownership (s : Store) (tid : ℤ) (rid : ℕ) :
    ((∀ n ∈ s.food_logs, ¬(n.id = rid ∧ n.user_id = (s.get_or_create_user tid).1.id)) →
      (s.delete_food_log tid rid).1 = false ∧ (s.delete_food_log tid rid).2.food_logs = s.food_logs) ∧
    ((∃ n ∈ s.food_logs, n.id = rid ∧ n.user_id = (s.get_or_create_user tid).1.id) →
      (s.delete_food_log tid rid).1 = true) ∧
    (∀ n ∈ s.food_logs, n ∉ (s.delete_food_log tid rid).2.food_logs →
      n.id = rid ∧ n.user_id = (s.get_or_create_user tid).1.id) ∧
    ((s.delete_food_log tid rid).2.delete_food_log tid rid).1 = false := by
  rcases hg : s.get_or_create_user tid with ⟨u, s1⟩
  have hn : s1.food_logs = s.food_logs := by
    have h := get_or_create_user_food_logs s tid
    rw [hg] at h
    exact h
  have hfind : s1.users.find? (fun r => r.telegram_id == tid) = some u := by
    have h := get_or_create_user_find_after s tid
    rw [hg] at h
    exact h
  have hfst : (s.delete_food_log tid rid).1 =
      decide (0 < (s.food_logs.filter (fun n => n.id == rid && n.user_id == u.id)).length) := by
    unfold Store.delete_food_log
    rw [hg]
    simp [hn, GT.gt]
  have hsnd_notes : (s.delete_food_log tid rid).2.food_logs =
      s.food_logs.filter (fun n => !(n.id == rid && n.user_id == u.id)) := by
    unfold Store.delete_food_log
    rw [hg]
    simp [hn]
  have hsnd_users : (s.delete_food_log tid rid).2.users = s1.users := by
    unfold Store.delete_food_log
    rw [hg]
  obtain ⟨g1, g2, g3, g4⟩ :=
    removeMatching_spec s.food_logs (fun n => n.id == rid && n.user_id == u.id)
  refine ⟨?_, ?_, ?_, ?_⟩
  · intro hnone
    have hall : ∀ n ∈ s.food_logs, (n.id == rid && n.user_id == u.id) = false := by
      intro n hmem
      have hne := hnone n hmem
      simpa [Bool.and_eq_true, not_and] using hne
    obtain ⟨hlen, hkeep⟩ := g1 hall
    rw [hfst, hsnd_notes]
    exact ⟨by simp [hlen], hkeep⟩
  · intro hex
    have hx : ∃ n ∈ s.food_logs, (n.id == rid && n.user_id == u.id) = true := by
      obtain ⟨n, hmem, hp⟩ := hex
      exact ⟨n, hmem, by simp [hp.1]; simpa using hp.2⟩
    rw [hfst]
    simpa using g2 hx
  · intro n hmem hnot
    rw [hsnd_notes] at hnot
    simpa using g3 n hmem hnot
  · have key : ∀ t : Store, t.get_or_create_user tid = (u, t) →
        (t.delete_food_log tid rid).1 = decide (0 <
          (t.food_logs.filter (fun n => n.id == rid && n.user_id == u.id)).length) := by
      intro t hgt
      unfold Store.delete_food_log
      rw [hgt]
    have hfind2 : (s.delete_food_log tid rid).2.users.find?
        (fun r => r.telegram_id == tid) = some u := by
      rw [hsnd_users]
      exact hfind
    rw [key _ (get_or_create_user_of_found _ tid u hfind2), hsnd_notes]
    simp [g4]

theorem delete_workout_ownership (s : Store) (tid : ℤ) (rid : ℕ) :
    ((∀ n ∈ s.workouts, ¬(n.id = rid ∧ n.user_id = (s.get_or_create_user tid).1.id)) →
      (s.delete_workout tid rid).1 = false ∧ (s.delete_workout tid rid).2.workouts = s.workouts) ∧
    ((∃ n ∈ s.workouts, n.id = rid ∧ n.user_id = (s.get_or_create_user tid).1.id) →
      (s.delete_workout tid rid).1 = true) ∧
    (∀ n ∈ s.workouts, n ∉ (s.delete_workout tid rid).2.workouts →
      n.id = rid ∧ n.user_id = (s.get_or_create_user tid).1.id) ∧
    ((s.delete_workout tid rid).2.delete_workout tid rid).1 = false := by
  rcases hg : s.get_or_create_user tid with ⟨u, s1⟩
  have hn : s1.workouts = s.workouts := by
    have h := get_or_create_user_workouts s tid
    rw [hg] at h
    exact h
  have hfind : s1.users.find? (fun r => r.telegram_id == tid) = some u := by
    have h := get_or_create_user_find_after s tid
    rw [hg] at h
    exact h
  have hfst : (s.delete_workout tid rid).1 =
      decide (0 < (s.workouts.filter (fun n => n.id == rid && n.user_id == u.id)).length) := by
    unfold Store.delete_workout
    rw [hg]
    simp [hn, GT.gt]
  have hsnd_notes : (s.delete_workout tid rid).2.workouts =
      s.workouts.filter (fun n => !(n.id == rid && n.user_id == u.id)) := by
    unfold Store.delete_workout
    rw [hg]
    simp [hn]
  have hsnd_users : (s.delete_workout tid rid).2.users = s1.users := by
    unfold Store.delete_workout
    rw [hg]
  obtain ⟨g1, g2, g3, g4⟩ :=
    removeMatching_spec s.workouts (fun n => n.id == rid && n.user_id == u.id)
  refine ⟨?_, ?_, ?_, ?_⟩
  · intro hnone
    have hall : ∀ n ∈ s.workouts, (n.id == rid && n.user_id == u.id) = false := by
      intro n hmem
      have hne := hnone n hmem
      simpa [Bool.and_eq_true, not_and] using hne
    obtain ⟨hlen, hkeep⟩ := g1 hall
    rw [hfst, hsnd_notes]
    exact ⟨by simp [hlen], hkeep⟩
  · intro hex
    have hx : ∃ n ∈ s.workouts, (n.id == rid && n.user_id == u.id) = true := by
      obtain ⟨n, hmem, hp⟩ := hex
      exact ⟨n, hmem, by simp [hp.1]; simpa using hp.2⟩
    rw [hfst]
    simpa using g2 hx
  · intro n hmem hnot
    rw [hsnd_notes] at hnot
    simpa using g3 n hmem hnot
  · have key : ∀ t : Store, t.get_or_create_user tid = (u, t) →
        (t.delete_workout tid rid).1 = decide (0 <
          (t.workouts.filter (fun n => n.id == rid && n.user_id == u.id)).length) := by
      intro t hgt
      unfold Store.delete_workout
      rw [hgt]
    have hfind2 : (s.delete_workout tid rid).2.users.find?
        (fun r => r.telegram_id == tid) = some u := by
      rw [hsnd_users]
      exact hfind
    rw [key _ (get_or_create_user_of_found _ tid u hfind2), hsnd_notes]
    simp [g4]

/-- C6: every delete removes a record only when its owner id equals the
caller's resolved profile id; deletes of foreign-owned or nonexistent
ids report not-found (`false`) and leave the table unchanged; a repeated
delete of the same id reports not-found the second time.  Stated for all
three record kinds (notes, food logs, workouts). -/
theorem c6_delete_requires_ownership (s : Store) (tid : ℤ) (rid : ℕ) :
    (((∀ n ∈ s.notes, ¬(n.id = rid ∧ n.user_id = (s.get_or_create_user tid).1.id)) →
        (s.delete_note tid rid).1 = false ∧ (s.delete_note tid rid).2.notes = s.notes) ∧
      ((∃ n ∈ s.notes, n.id = rid ∧ n.user_id = (s.get_or_create_user tid).1.id) →
        (s.delete_note tid rid).1 = true) ∧
      (∀ n ∈ s.notes, n ∉ (s.delete_note tid rid).2.notes →
        n.id = rid ∧ n.user_id = (s.get_or_create_user tid).1.id) ∧
      ((s.delete_note tid rid).2.delete_note tid rid).1 = false) ∧
    (((∀ r ∈ s.food_logs, ¬(r.id = rid ∧ r.user_id = (s.get_or_create_user tid).1.id)) →
        (s.delete_food_log tid rid).1 = false ∧
          (s.delete_food_log tid rid).2.food_logs = s.food_logs) ∧
      ((∃ r ∈ s.food_logs, r.id = rid ∧ r.user_id = (s.get_or_create_user tid).1.id) →
        (s.delete_food_log tid rid).1 = true) ∧
      (∀ r ∈ s.food_logs, r ∉ (s.delete_food_log tid rid).2.food_logs →
        r.id = rid ∧ r.user_id = (s.get_or_create_user tid).1.id) ∧
      ((s.delete_food_log tid rid).2.delete_food_log tid rid).1 = false) ∧
    (((∀ w ∈ s.workouts, ¬(w.id = rid ∧ w.user_id = (s.get_or_create_user tid).1.id)) →
        (s.delete_workout tid rid).1 = false ∧
          (s.delete_workout tid rid).2.workouts = s.workouts) ∧
      ((∃ w ∈ s.workouts, w.id = rid ∧ w.user_id = (s.get_or_create_user tid).1.id) →
        (s.delete_workout tid rid).1 = true) ∧
      (∀ w ∈ s.workouts, w ∉ (s.delete_workout tid rid).2.workouts →
        w.id = rid ∧ w.user_id = (s.get_or_create_user tid).1.id) ∧
      ((s.delete_workout tid rid).2.delete_workout tid rid).1 = false) :=
  ⟨delete_note_ownership s tid rid, delete_food_log_ownership s tid rid,
   delete_workout_ownership s tid rid⟩

/-- Witness for C6: on a concrete store, the owner's own note deletes
with success then not-found on repeat; a food record owned by another
profile reports not-found and survives. -/
theorem c6_delete_requires_ownership_witness :
    (({ users := [{ id := 5, telegram_id := 42, daily_calorie_target := some 2000 },
                  { id := 6, telegram_id := 99, daily_calorie_target := some 2000 }],
        notes := [{ id := 9, user_id := 5, content := "a", summary := "b",
                    tags := [], created_at := 0 }],
        food_logs := [{ id := 11, user_id := 6, food_description := "pizza",
                        calories := 800, protein := 0, carbs := 0, fat := 0,
                        created_at := 0 }],
        next_id := 12 } : Store).delete_note 42 9).1 = true ∧
    ((({ users := [{ id := 5, telegram_id := 42, daily_calorie_target := some 2000 },
                   { id := 6, telegram_id := 99, daily_calorie_target := some 2000 }],
         notes := [{ id := 9, user_id := 5, content := "a", summary := "b",
                     tags := [], created_at := 0 }],
         food_logs := [{ id := 11, user_id := 6, food_description := "pizza",
                         calories := 800, protein := 0, carbs := 0, fat := 0,
                         created_at := 0 }],
         next_id := 12 } : Store).delete_note 42 9).2.delete_note 42 9).1 = false ∧
    (({ users := [{ id := 5, telegram_id := 42, daily_calorie_target := some 2000 },
                  { id := 6, telegram_id := 99, daily_calorie_target := some 2000 }],
        notes := [{ id := 9, user_id := 5, content := "a", summary := "b",
                    tags := [], created_at := 0 }],
        food_logs := [{ id := 11, user_id := 6, food_description := "pizza",
                        calories := 800, protein := 0, carbs := 0, fat := 0,
                        created_at := 0 }],
        next_id := 12 } : Store).delete_food_log 42 11).1 = false := by
  refine ⟨?_, ?_, ?_⟩
  · exact (c6_delete_requires_ownership _ 42 9).1.2.1
      ⟨{ id := 9, user_id := 5, content := "a", summary := "b",
         tags := [], created_at := 0 }, by simp, by constructor <;> rfl⟩
  · exact (c6_delete_requires_ownership _ 42 9).1.2.2.2
  · exact ((c6_delete_requires_ownership _ 42 11).2.1.1
      (by simp [Store.get_or_create_user, List.find?])).1

/-- C1 counterexample: a stored daily calorie target of `0` is a set
target, yet Python's truthiness test `if calories_target` treats it like
`None`: the summary reports `calories_remaining = None` instead of
`0 - 500 = -500`, refuting "otherwise equals target minus totalCalories"
as universally stated. -/
theorem c1_target_zero_counterexample :
    (({ users := [{ id := 0, telegram_id := 1, daily_calorie_target := some 0 }],
        food_logs := [{ id := 1, user_id := 0, food_description := "x",
                        calories := 500, protein := 0, carbs := 0, fat := 0,
                        created_at := 43200000000 }],
        next_id := 2 } : Store).get_daily_summary 1 0).1.calories_target = some 0 ∧
    (({ users := [{ id := 0, telegram_id := 1, daily_calorie_target := some 0 }],
        food_logs := [{ id := 1, user_id := 0, food_description := "x",
                        calories := 500, protein := 0, carbs := 0, fat := 0,
                        created_at := 43200000000 }],
        next_id := 2 } : Store).get_daily_summary 1 0).1.total_calories = 500 ∧
    (({ users := [{ id := 0, telegram_id := 1, daily_calorie_target := some 0 }],
        food_logs := [{ id := 1, user_id := 0, food_description := "x",
                        calories := 500, protein := 0, carbs := 0, fat := 0,
                        created_at := 43200000000 }],
        next_id := 2 } : Store).get_daily_summary 1 0).1.calories_remaining = none := by
  refine ⟨?_, ?_, ?_⟩ <;>
    simp [Store.get_daily_summary, Store.get_daily_nutrition,
      Store.get_or_create_user, List.find?, List.filter,
      startOfDay, endOfDay, ticksPerDay]

/-- C1 (amended): `calories_remaining` is absent when no daily calorie
target is set **or when the stored target is zero** (Python truthiness),
and otherwise equals target minus the day's total calories, which may be
negative; it is never defaulted to zero when no target is set. -/
theorem c1_calories_remaining_amended (s : Store) (tid d : ℤ) :
    ((s.get_or_create_user tid).1.daily_calorie_target = none →
      (s.get_daily_summary tid d).1.calories_remaining = none) ∧
    ((s.get_or_create_user tid).1.daily_calorie_target = some 0 →
      (s.get_daily_summary tid d).1.calories_remaining = none) ∧
    (∀ t : ℤ, (s.get_or_create_user tid).1.daily_calorie_target = some t → t ≠ 0 →
      (s.get_daily_summary tid d).1.calories_remaining =
        some (t - (s.get_daily_summary tid d).1.total_calories)) := by
  rcases hg : s.get_or_create_user tid with ⟨u, s1⟩
  rcases hn : s1.get_daily_nutrition tid d with ⟨nut, s2⟩
  rcases hw : s2.get_daily_workouts tid d with ⟨wk, s3⟩
  have hrem : (s.get_daily_summary tid d).1.calories_remaining =
      (match u.daily_calorie_target with
       | some t => if t = 0 then none else some (t - nut.total_calories)
       | none => none) := by
    unfold Store.get_daily_summary
    rw [hg]
    dsimp only
    rw [hn]
  have htot : (s.get_daily_summary tid d).1.total_calories =
      nut.total_calories := by
    unfold Store.get_daily_summary
    rw [hg]
    dsimp only
    rw [hn]
  refine ⟨?_, ?_, ?_⟩
  · intro h
    rw [hrem, h]
  · intro h
    rw [hrem, h]
    simp
  · intro t ht htz
    rw [hrem, ht, htot]
    simp [htz]

/-- Witness for C1 (amended): an owner with target `1800` and `500` kcal
logged has `calories_remaining = target - total`. -/
theorem c1_calories_remaining_amended_witness :
    (({ users := [{ id := 0, telegram_id := 1, daily_calorie_target := some 1800 }], food_logs := [{ id := 1, user_id := 0, food_description := "x", calories := 500, protein := 0, carbs := 0, fat := 0, created_at := 43200000000 }], next_id := 2 } : Store).get_daily_summary 1 0).1.calories_remaining =
      some (1800 - (({ users := [{ id := 0, telegram_id := 1, daily_calorie_target := some 1800 }], food_logs := [{ id := 1, user_id := 0, food_description := "x", calories := 500, protein := 0, carbs := 0, fat := 0, created_at := 43200000000 }], next_id := 2 } : Store).get_daily_summary 1 0).1.total_calories) :=
  (c1_calories_remaining_amended _ 1 0).2.2 1800 rfl (by decide)

theorem mem_notes_range (s : Store) (tid sd ed : ℤ) (n : NoteRow) :
    n ∈ (s.get_notes_by_date_range tid sd ed).1 ↔
      n ∈ s.notes ∧ n.user_id = (s.get_or_create_user tid).1.id ∧
      startOfDay sd ≤ n.created_at ∧ n.created_at ≤ endOfDay ed := by
  rcases hg : s.get_or_create_user tid with ⟨u, s1⟩
  have hn : s1.notes = s.notes := by
    have h := get_or_create_user_notes s tid
    rw [hg] at h
    exact h
  unfold Store.get_notes_by_date_range
  rw [hg]
  dsimp only
  rw [mem_sortByCreatedDesc, List.mem_filter, hn]
  simp [and_assoc]

theorem mem_food_range (s : Store) (tid sd ed : ℤ) (r : FoodRow) :
    r ∈ (s.get_food_logs_by_date_range tid sd ed).1 ↔
      r ∈ s.food_logs ∧ r.user_id = (s.get_or_create_user tid).1.id ∧
      startOfDay sd ≤ r.created_at ∧ r.created_at ≤ endOfDay ed := by
  rcases hg : s.get_or_create_user tid with ⟨u, s1⟩
  have hn : s1.food_logs = s.food_logs := by
    have h := get_or_create_user_food_logs s tid
    rw [hg] at h
    exact h
  unfold Store.get_food_logs_by_date_range
  rw [hg]
  dsimp only
  rw [mem_sortByCreatedDesc, List.mem_filter, hn]
  simp [and_assoc]

theorem mem_workouts_range (s : Store) (tid sd ed : ℤ) (w : WorkoutRow) :
    w ∈ (s.get_workouts_by_date_range tid sd ed).1 ↔
      w ∈ s.workouts ∧ w.user_id = (s.get_or_create_user tid).1.id ∧
      startOfDay sd ≤ w.created_at ∧ w.created_at ≤ endOfDay ed := by
  rcases hg : s.get_or_create_user tid with ⟨u, s1⟩
  have hn : s1.workouts = s.workouts := by
    have h := get_or_create_user_workouts s tid
    rw [hg] at h
    exact h
  unfold Store.get_workouts_by_date_range
  rw [hg]
  dsimp only
  rw [mem_sortByCreatedDesc, List.mem_filter, hn]
  simp [and_assoc]

theorem mem_daily_nutrition_entries (s : Store) (tid d : ℤ) (r : FoodRow) :
    r ∈ ((s.get_daily_nutrition tid d).1).entries ↔
      r ∈ s.food_logs ∧ r.user_id = (s.get_or_create_user tid).1.id ∧
      startOfDay d ≤ r.created_at ∧ r.created_at ≤ endOfDay d := by
  rcases hg : s.get_or_create_user tid with ⟨u, s1⟩
  have hn : s1.food_logs = s.food_logs := by
    have h := get_or_create_user_food_logs s tid
    rw [hg] at h
    exact h
  unfold Store.get_daily_nutrition
  rw [hg]
  dsimp only
  rw [List.mem_filter, hn]
  simp [and_assoc]

/-- C9 counterexample: on an empty store the range query over `[d-1, d]`
returns exactly the same (empty) record set as `[d, d]`, so the result of
`[d, d]` is **not** a strict subset of the result of `[d-1, d]` — the
universally claimed strictness fails. -/
theorem c9_strict_subset_counterexample :
    (({} : Store).get_notes_by_date_range 1 0 0).1 = [] ∧
    (({} : Store).get_notes_by_date_range 1 (-1) 0).1 = [] ∧
    ¬((∀ n ∈ (({} : Store).get_notes_by_date_range 1 0 0).1,
          n ∈ (({} : Store).get_notes_by_date_range 1 (-1) 0).1) ∧
      ∃ n ∈ (({} : Store).get_notes_by_date_range 1 (-1) 0).1,
          n ∉ (({} : Store).get_notes_by_date_range 1 0 0).1) := by
  have h1 : (({} : Store).get_notes_by_date_range 1 0 0).1 = [] := by
    simp [Store.get_notes_by_date_range, Store.get_or_create_user,
      sortByCreatedDesc, List.find?]
  have h2 : (({} : Store).get_notes_by_date_range 1 (-1) 0).1 = [] := by
    simp [Store.get_notes_by_date_range, Store.get_or_create_user,
      sortByCreatedDesc, List.find?]
  refine ⟨h1, h2, ?_⟩
  rintro ⟨-, n, hmem, -⟩
  rw [h2] at hmem
  exact absurd hmem (List.not_mem_nil n)

/-- C9 (amended): a range query `[d, d]` returns the same records as the
single-day query for `d` (literally the same list for workouts, the same
членship for food entries); every range query selects exactly the
owner's records inside the closed interval from the first instant of the
start date to the last instant of the end date, uniformly for all three
time-stamped record kinds; `[d, d]` is a subset of `[d-1, d]`, and the
subset is strict exactly when the owner has a record on day `d-1` —
not unconditionally as stated. -/
theorem c9_range_closed_interval (s : Store) (tid d : ℤ) :
    ((s.get_workouts_by_date_range tid d d).1 = (s.get_daily_workouts tid d).1) ∧
    (∀ r : FoodRow, r ∈ (s.get_food_logs_by_date_range tid d d).1 ↔
        r ∈ ((s.get_daily_nutrition tid d).1).entries) ∧
    (∀ sd ed : ℤ, ∀ n : NoteRow, n ∈ (s.get_notes_by_date_range tid sd ed).1 ↔
        n ∈ s.notes ∧ n.user_id = (s.get_or_create_user tid).1.id ∧
        startOfDay sd ≤ n.created_at ∧ n.created_at ≤ endOfDay ed) ∧
    (∀ sd ed : ℤ, ∀ r : FoodRow, r ∈ (s.get_food_logs_by_date_range tid sd ed).1 ↔
        r ∈ s.food_logs ∧ r.user_id = (s.get_or_create_user tid).1.id ∧
        startOfDay sd ≤ r.created_at ∧ r.created_at ≤ endOfDay ed) ∧
    (∀ sd ed : ℤ, ∀ w : WorkoutRow, w ∈ (s.get_workouts_by_date_range tid sd ed).1 ↔
        w ∈ s.workouts ∧ w.user_id = (s.get_or_create_user tid).1.id ∧
        startOfDay sd ≤ w.created_at ∧ w.created_at ≤ endOfDay ed) ∧
    (∀ n : NoteRow, n ∈ (s.get_notes_by_date_range tid d d).1 →
        n ∈ (s.get_notes_by_date_range tid (d - 1) d).1) ∧
    ((∃ n ∈ s.notes, n.user_id = (s.get_or_create_user tid).1.id ∧
        tsDay n.created_at = d - 1) →
      ∃ n ∈ (s.get_notes_by_date_range tid (d - 1) d).1,
        n ∉ (s.get_notes_by_date_range tid d d).1) := by
  refine ⟨rfl, ?_, ?_, ?_, ?_, ?_, ?_⟩
  · intro r
    rw [mem_food_range, mem_daily_nutrition_entries]
  · intro sd ed n
    exact mem_notes_range s tid sd ed n
  · intro sd ed r
    exact mem_food_range s tid sd ed r
  · intro sd ed w
    exact mem_workouts_range s tid sd ed w
  · intro n hmem
    rw [mem_notes_range] at hmem ⊢
    obtain ⟨h1, h2, h3, h4⟩ := hmem
    refine ⟨h1, h2, ?_, h4⟩
    have hmono : startOfDay (d - 1) ≤ startOfDay d := by
      simp only [startOfDay, ticksPerDay]
      omega
    omega
  · rintro ⟨n, hmem, howner, hday⟩
    rw [tsDay_eq_iff] at hday
    refine ⟨n, ?_, ?_⟩
    · rw [mem_notes_range]
      have hend : endOfDay (d - 1) ≤ endOfDay d := by
        simp only [endOfDay, ticksPerDay]
        omega
      exact ⟨hmem, howner, hday.1, le_trans hday.2 hend⟩
    · rw [mem_notes_range]
      rintro ⟨-, -, hlo, -⟩
      have : endOfDay (d - 1) < startOfDay d := by
        simp only [startOfDay, endOfDay, ticksPerDay]
        omega
      omega

/-- Witness for C9 (amended): with one note logged on day 0, the range
`[0, 1]` strictly exceeds `[1, 1]`. -/
theorem c9_range_closed_interval_witness :
    ∃ n ∈ (({ users := [{ id := 0, telegram_id := 1, daily_calorie_target := some 2000 }], notes := [{ id := 1, user_id := 0, content := "a", summary := "b", tags := [], created_at := 43200000000 }], next_id := 2 } : Store).get_notes_by_date_range 1 0 1).1,
      n ∉ (({ users := [{ id := 0, telegram_id := 1, daily_calorie_target := some 2000 }], notes := [{ id := 1, user_id := 0, content := "a", summary := "b", tags := [], created_at := 43200000000 }], next_id := 2 } : Store).get_notes_by_date_range 1 1 1).1 :=
  (c9_range_closed_interval _ 1 1).2.2.2.2.2.2
    ⟨{ id := 1, user_id := 0, content := "a", summary := "b", tags := [],
       created_at := 43200000000 }, by simp, rfl, by decide⟩

theorem bumpDay_sum (acc : List (ℤ × ℤ)) (d c : ℤ) :
    ((bumpDay acc d c).map (·.2)).sum = (acc.map (·.2)).sum + c := by
  induction acc with
  | nil => simp [bumpDay]
  | cons kv rest ih =>
      by_cases h : kv.1 == d
      · simp [bumpDay, h]
        ring
      · simp [bumpDay, h, ih]
        ring

theorem bumpDay_keys_of_mem (acc : List (ℤ × ℤ)) (d c : ℤ)
    (h : d ∈ acc.map (·.1)) :
    (bumpDay acc d c).map (·.1) = acc.map (·.1) := by
  induction acc with
  | nil => simp at h
  | cons kv rest ih =>
      by_cases hkv : kv.1 == d
      · simp [bumpDay, hkv]
      · have hd : d ∈ rest.map (·.1) := by
          rcases List.mem_map.mp h with ⟨x, hx, hx1⟩
          rcases List.mem_cons.mp hx with rfl | hx'
          · exact absurd (by simp [hx1]) hkv
          · exact List.mem_map.mpr ⟨x, hx', hx1⟩
        simp [bumpDay, hkv, ih hd]

theorem bumpDay_keys_of_not_mem (acc : List (ℤ × ℤ)) (d c : ℤ)
    (h : d ∉ acc.map (·.1)) :
    (bumpDay acc d c).map (·.1) = acc.map (·.1) ++ [d] := by
  induction acc with
  | nil => simp [bumpDay]
  | cons kv rest ih =>
      have hkv : ¬(kv.1 == d) := by
        intro hx
        exact h (List.mem_map.mpr ⟨kv, List.mem_cons_self kv rest, by simpa using hx⟩)
      have hrest : d ∉ rest.map (·.1) := fun hx =>
        h (by rcases List.mem_map.mp hx with ⟨x, hx', hx1⟩
              exact List.mem_map.mpr ⟨x, List.mem_cons_of_mem kv hx', hx1⟩)
      simp [bumpDay, hkv, ih hrest]

theorem mem_bumpDay_keys (acc : List (ℤ × ℤ)) (d c d' : ℤ) :
    d' ∈ (bumpDay acc d c).map (·.1) ↔ d' ∈ acc.map (·.1) ∨ d' = d := by
  by_cases h : d ∈ acc.map (·.1)
  · rw [bumpDay_keys_of_mem acc d c h]
    constructor
    · exact fun hx => Or.inl hx
    · rintro (hx | rfl)
      · exact hx
      · exact h
  · rw [bumpDay_keys_of_not_mem acc d c h]
    simp

theorem bumpDay_keys_nodup (acc : List (ℤ × ℤ)) (d c : ℤ)
    (h : (acc.map (·.1)).Nodup) : ((bumpDay acc d c).map (·.1)).Nodup := by
  by_cases hd : d ∈ acc.map (·.1)
  · rw [bumpDay_keys_of_mem acc d c hd]
    exact h
  · rw [bumpDay_keys_of_not_mem acc d c hd]
    rw [List.nodup_append]
    refine ⟨h, List.nodup_singleton d, ?_⟩
    intro x hx hx'
    simp only [List.mem_singleton] at hx'
    subst hx'
    exact hd hx

theorem groupFold_sum (logs : List FoodRow) :
    ∀ acc : List (ℤ × ℤ),
      (((logs.foldl (fun acc r => bumpDay acc (tsDay r.created_at) r.calories) acc)).map
        (·.2)).sum = (acc.map (·.2)).sum + (logs.map (·.calories)).sum := by
  induction logs with
  | nil => intro acc; simp
  | cons r rest ih =>
      intro acc
      simp only [List.foldl_cons, List.map_cons, List.sum_cons]
      rw [ih, bumpDay_sum]
      ring

theorem groupFold_mem (logs : List FoodRow) :
    ∀ (acc : List (ℤ × ℤ)) (d' : ℤ),
      d' ∈ ((logs.foldl (fun acc r => bumpDay acc (tsDay r.created_at) r.calories) acc)).map
        (·.1) ↔ d' ∈ acc.map (·.1) ∨ ∃ r ∈ logs, tsDay r.created_at = d' := by
  induction logs with
  | nil => intro acc d'; simp
  | cons r rest ih =>
      intro acc d'
      simp only [List.foldl_cons]
      rw [ih]
      rw [mem_bumpDay_keys]
      constructor
      · rintro ((hx | rfl) | ⟨x, hx, hd⟩)
        · exact Or.inl hx
        · exact Or.inr ⟨r, List.mem_cons_self r rest, rfl⟩
        · exact Or.inr ⟨x, List.mem_cons_of_mem r hx, hd⟩
      · rintro (hx | ⟨x, hx, hd⟩)
        · exact Or.inl (Or.inl hx)
        · rcases List.mem_cons.mp hx with rfl | hx'
          · exact Or.inl (Or.inr hd.symm)
          · exact Or.inr ⟨x, hx', hd⟩

theorem groupFold_nodup (logs : List FoodRow) :
    ∀ acc : List (ℤ × ℤ), (acc.map (·.1)).Nodup →
      (((logs.foldl (fun acc r => bumpDay acc (tsDay r.created_at) r.calories) acc)).map
        (·.1)).Nodup := by
  induction logs with
  | nil => intro acc h; simpa using h
  | cons r rest ih =>
      intro acc h
      simp only [List.foldl_cons]
      exact ih _ (bumpDay_keys_nodup _ _ _ h)

theorem groupByDay_sum (logs : List FoodRow) :
    ((groupByDay logs).map (·.2)).sum = (logs.map (·.calories)).sum := by
  unfold groupByDay
  rw [groupFold_sum]
  simp

theorem groupByDay_mem (logs : List FoodRow) (d : ℤ) :
    d ∈ (groupByDay logs).map (·.1) ↔ ∃ r ∈ logs, tsDay r.created_at = d := by
  unfold groupByDay
  rw [groupFold_mem]
  simp

theorem groupByDay_nodup (logs : List FoodRow) :
    ((groupByDay logs).map (·.1)).Nodup := by
  unfold groupByDay
  exact groupFold_nodup logs [] (by simp)

theorem pyRound0_zero : pyRound0 0 = 0 := by
  simp [pyRound0, roundHalfEven]

/-- C5 (amended): `avg_daily_kcal` equals the window's total calories
divided by the number of days having at least one food entry (never by
the window length), **rounded to the nearest integer** (`round(x, 0)`,
half to even) — not the exact quotient — and the divisor is clamped to 1
so a window with no entries yields 0 with no division error.  The day
buckets are exactly the distinct calendar days of the window's entries. -/
theorem c5_avg_daily_calories_amended (s : Store) (tid days today : ℤ) :
    (((groupByDay ((s.get_food_logs_by_date_range tid (today - (days - 1)) today).1)).map
        (·.1)).Nodup) ∧
    (∀ d : ℤ, d ∈ (groupByDay
        ((s.get_food_logs_by_date_range tid (today - (days - 1)) today).1)).map (·.1) ↔
      ∃ r ∈ (s.get_food_logs_by_date_range tid (today - (days - 1)) today).1,
        tsDay r.created_at = d) ∧
    ((s.get_wellness_totals tid days today).1.avg_daily_kcal =
      pyRound0 (((((s.get_food_logs_by_date_range tid (today - (days - 1)) today).1.map
          (·.calories)).sum : ℤ) : ℚ) /
        ((max (groupByDay
          ((s.get_food_logs_by_date_range tid (today - (days - 1)) today).1)).length 1 : ℕ) : ℚ))) ∧
    ((s.get_food_logs_by_date_range tid (today - (days - 1)) today).1 = [] →
      (s.get_wellness_totals tid days today).1.avg_daily_kcal = 0) := by
  rcases hf : s.get_food_logs_by_date_range tid (today - (days - 1)) today with ⟨logs, s1⟩
  have havg : (s.get_wellness_totals tid days today).1.avg_daily_kcal =
      pyRound0 (((((groupByDay logs).map (·.2)).sum : ℤ) : ℚ) /
        ((max (groupByDay logs).length 1 : ℕ) : ℚ)) := by
    unfold Store.get_wellness_totals
    dsimp only
    rw [hf]
    show pyRound0 ((List.map (fun x => ((x.2 : ℤ) : ℚ)) (groupByDay logs)).sum /
      ((max (groupByDay logs).length 1 : ℕ) : ℚ)) = _
    rw [show (List.map (fun x => ((x.2 : ℤ) : ℚ)) (groupByDay logs)).sum =
        (((List.map (fun x => x.2) (groupByDay logs)).sum : ℤ) : ℚ) by
      rw [Int.cast_list_sum, List.map_map]
      rfl]
  refine ⟨groupByDay_nodup logs, fun d => groupByDay_mem logs d, ?_, ?_⟩
  · rw [havg, groupByDay_sum]
  · intro h
    have h' : logs = [] := h
    subst h'
    rw [havg]
    simp only [groupByDay, List.foldl_nil, List.map_nil, List.sum_nil,
      List.length_nil]
    norm_num [pyRound0_zero]

/-- Witness for C5 (amended): a window with zero food entries yields
`avg_daily_kcal = 0`, not a division error. -/
theorem c5_avg_daily_calories_amended_witness :
    (({} : Store).get_wellness_totals 1 7 10).1.avg_daily_kcal = 0 :=
  (c5_avg_daily_calories_amended {} 1 7 10).2.2.2
    (by simp [Store.get_food_logs_by_date_range, Store.get_or_create_user,
      sortByCreatedDesc, List.find?])

/-- C5 counterexample: 100 kcal spread over three days with entries; the
code reports `round(100/3, 0) = 33`, not the exact quotient `100/3`, so
"avgDailyCalories equals the total divided by the number of days" fails
as literally universally stated. -/
theorem c5_avg_rounding_counterexample :
    ((({ users := [{ id := 0, telegram_id := 1, daily_calorie_target := some 2000 }], food_logs := [{ id := 2, user_id := 0, food_description := "a", calories := 25, protein := 0, carbs := 0, fat := 0, created_at := 216000000000 }, { id := 3, user_id := 0, food_description := "b", calories := 25, protein := 0, carbs := 0, fat := 0, created_at := 129600000000 }, { id := 4, user_id := 0, food_description := "c", calories := 50, protein := 0, carbs := 0, fat := 0, created_at := 43200000000 }], next_id := 5 } : Store).get_food_logs_by_date_range 1 0 2).1.map (·.calories)).sum = 100 ∧
    (groupByDay (({ users := [{ id := 0, telegram_id := 1, daily_calorie_target := some 2000 }], food_logs := [{ id := 2, user_id := 0, food_description := "a", calories := 25, protein := 0, carbs := 0, fat := 0, created_at := 216000000000 }, { id := 3, user_id := 0, food_description := "b", calories := 25, protein := 0, carbs := 0, fat := 0, created_at := 129600000000 }, { id := 4, user_id := 0, food_description := "c", calories := 50, protein := 0, carbs := 0, fat := 0, created_at := 43200000000 }], next_id := 5 } : Store).get_food_logs_by_date_range 1 0 2).1).length = 3 ∧
    (({ users := [{ id := 0, telegram_id := 1, daily_calorie_target := some 2000 }], food_logs := [{ id := 2, user_id := 0, food_description := "a", calories := 25, protein := 0, carbs := 0, fat := 0, created_at := 216000000000 }, { id := 3, user_id := 0, food_description := "b", calories := 25, protein := 0, carbs := 0, fat := 0, created_at := 129600000000 }, { id := 4, user_id := 0, food_description := "c", calories := 50, protein := 0, carbs := 0, fat := 0, created_at := 43200000000 }], next_id := 5 } : Store).get_wellness_totals 1 3 2).1.avg_daily_kcal = 33 ∧
    (({ users := [{ id := 0, telegram_id := 1, daily_calorie_target := some 2000 }], food_logs := [{ id := 2, user_id := 0, food_description := "a", calories := 25, protein := 0, carbs := 0, fat := 0, created_at := 216000000000 }, { id := 3, user_id := 0, food_description := "b", calories := 25, protein := 0, carbs := 0, fat := 0, created_at := 129600000000 }, { id := 4, user_id := 0, food_description := "c", calories := 50, protein := 0, carbs := 0, fat := 0, created_at := 43200000000 }], next_id := 5 } : Store).get_wellness_totals 1 3 2).1.avg_daily_kcal ≠ (100 : ℚ) / 3 := by
  have hpair : (({ users := [{ id := 0, telegram_id := 1, daily_calorie_target := some 2000 }], food_logs := [{ id := 2, user_id := 0, food_description := "a", calories := 25, protein := 0, carbs := 0, fat := 0, created_at := 216000000000 }, { id := 3, user_id := 0, food_description := "b", calories := 25, protein := 0, carbs := 0, fat := 0, created_at := 129600000000 }, { id := 4, user_id := 0, food_description := "c", calories := 50, protein := 0, carbs := 0, fat := 0, created_at := 43200000000 }], next_id := 5 } : Store).get_food_logs_by_date_range 1 0 2) =
      ([{ id := 2, user_id := 0, food_description := "a", calories := 25, protein := 0, carbs := 0, fat := 0, created_at := 216000000000 }, { id := 3, user_id := 0, food_description := "b", calories := 25, protein := 0, carbs := 0, fat := 0, created_at := 129600000000 }, { id := 4, user_id := 0, food_description := "c", calories := 50, protein := 0, carbs := 0, fat := 0, created_at := 43200000000 }],
       ({ users := [{ id := 0, telegram_id := 1, daily_calorie_target := some 2000 }], food_logs := [{ id := 2, user_id := 0, food_description := "a", calories := 25, protein := 0, carbs := 0, fat := 0, created_at := 216000000000 }, { id := 3, user_id := 0, food_description := "b", calories := 25, protein := 0, carbs := 0, fat := 0, created_at := 129600000000 }, { id := 4, user_id := 0, food_description := "c", calories := 50, protein := 0, carbs := 0, fat := 0, created_at := 43200000000 }], next_id := 5 } : Store)) := by
    simp [Store.get_food_logs_by_date_range, Store.get_or_create_user,
      List.find?, List.filter, sortByCreatedDesc, List.mergeSort,
      startOfDay, endOfDay, ticksPerDay]
  have hgroup : groupByDay [{ id := 2, user_id := 0, food_description := "a", calories := 25, protein := 0, carbs := 0, fat := 0, created_at := 216000000000 }, { id := 3, user_id := 0, food_description := "b", calories := 25, protein := 0, carbs := 0, fat := 0, created_at := 129600000000 }, { id := 4, user_id := 0, food_description := "c", calories := 50, protein := 0, carbs := 0, fat := 0, created_at := 43200000000 }] = [(2, 25), (1, 25), (0, 50)] := by
    simp [groupByDay, bumpDay, tsDay, ticksPerDay]
  have havg : (({ users := [{ id := 0, telegram_id := 1, daily_calorie_target := some 2000 }], food_logs := [{ id := 2, user_id := 0, food_description := "a", calories := 25, protein := 0, carbs := 0, fat := 0, created_at := 216000000000 }, { id := 3, user_id := 0, food_description := "b", calories := 25, protein := 0, carbs := 0, fat := 0, created_at := 129600000000 }, { id := 4, user_id := 0, food_description := "c", calories := 50, protein := 0, carbs := 0, fat := 0, created_at := 43200000000 }], next_id := 5 } : Store).get_wellness_totals 1 3 2).1.avg_daily_kcal = 33 := by
    unfold Store.get_wellness_totals
    dsimp only
    rw [show ((2 : ℤ) - (3 - 1)) = 0 by norm_num, hpair]
    dsimp only
    rw [hgroup]
    norm_num [pyRound0, roundHalfEven]
  refine ⟨?_, ?_, havg, ?_⟩
  · rw [congrArg Prod.fst hpair]
    norm_num
  · rw [congrArg Prod.fst hpair]
    dsimp only
    rw [hgroup]
    rfl
  · rw [havg]
    norm_num

/-- C7 counterexample: the question branch replies `"💬 " + answer`, so
the outbound text is not the answer **verbatim** — it carries a fixed
decorative emoji prefix. -/
theorem c7_reply_not_verbatim_counterexample :
    (handle_question {} { confidence := 1, answer := "Hi" }).1.text ≠ "Hi" ∧
    (handle_question {} { confidence := 1, answer := "Hi" }).1.text = "💬 Hi" := by
  constructor
  · intro h
    exact absurd h (by decide)
  · rfl

/-- C7 (amended): a Question classification writes nothing — the store,
and in particular every record count, is unchanged — and the outbound
text is the answer prefixed by the fixed decoration `"💬 "` (thus
containing the answer verbatim), sent with Markdown disabled. -/
theorem c7_question_writes_nothing (s : Store) (d : QuestionData) :
    (handle_question s d).2 = s ∧
    (handle_question s d).2.notes.length = s.notes.length ∧
    (handle_question s d).2.food_logs.length = s.food_logs.length ∧
    (handle_question s d).2.workouts.length = s.workouts.length ∧
    (handle_question s d).1.text = "💬 " ++ d.answer ∧
    containsSubstr (handle_question s d).1.text d.answer = true ∧
    (handle_question s d).1.markdown = false := by
  refine ⟨rfl, rfl, rfl, rfl, rfl, ?_, rfl⟩
  have h := containsSubstr_of_append "💬 " d.answer ""
  simpa using h

/-- C4: a valid Food payload classifies to a `FoodData` whose macros are
the inputs rounded to exactly one decimal place (the rounded value has
denominator dividing 10 and sits within 1/20 of the input) and whose
calories are the input integer unchanged; `insert_food_log` then stores
those values without further change. -/
theorem c4_food_rounding (fields : List (String × JsonVal))
    (conf cal p c f : ℚ) (desc : String)
    (h_type : getField fields "type" = some (.jstr "food"))
    (h_conf : getField fields "confidence" = some (.jnum conf))
    (h_desc : getField fields "food_description" = some (.jstr desc))
    (h_cal : getField fields "calories" = some (.jnum cal))
    (h_p : getField fields "protein" = some (.jnum p))
    (h_c : getField fields "carbs" = some (.jnum c))
    (h_f : getField fields "fat" = some (.jnum f))
    (hc0 : 0 ≤ conf) (hc1 : conf ≤ 1) (hd : 1 ≤ desc.length)
    (hden : cal.den = 1) (hcal : 0 ≤ cal)
    (hp : 0 ≤ p) (hc2 : 0 ≤ c) (hf2 : 0 ≤ f)
    (s : Store) (now tid : ℤ) :
    classify_message (.parsed (.jobj fields)) =
      .ok (.food { confidence := conf, food_description := desc,
                   calories := cal.num, protein := pyRound1 p,
                   carbs := pyRound1 c, fat := pyRound1 f }) ∧
    ((s.insert_food_log now tid desc cal.num
        (pyRound1 p) (pyRound1 c) (pyRound1 f)).1.calories = cal.num ∧
      (s.insert_food_log now tid desc cal.num
        (pyRound1 p) (pyRound1 c) (pyRound1 f)).1.protein = pyRound1 p ∧
      (s.insert_food_log now tid desc cal.num
        (pyRound1 p) (pyRound1 c) (pyRound1 f)).1.carbs = pyRound1 c ∧
      (s.insert_food_log now tid desc cal.num
        (pyRound1 p) (pyRound1 c) (pyRound1 f)).1.fat = pyRound1 f) ∧
    ((pyRound1 p * 10).den = 1 ∧ (pyRound1 c * 10).den = 1 ∧
      (pyRound1 f * 10).den = 1) ∧
    (|pyRound1 p - p| ≤ 1/20 ∧ |pyRound1 c - c| ≤ 1/20 ∧
      |pyRound1 f - f| ≤ 1/20) := by
  have hval : FoodData.validate fields =
      some { confidence := conf, food_description := desc, calories := cal.num,
             protein := pyRound1 p, carbs := pyRound1 c, fat := pyRound1 f } := by
    unfold FoodData.validate
    rw [h_conf, h_desc, h_cal, h_p, h_c, h_f]
    dsimp only
    rw [if_pos]
    exact ⟨hc0, hc1, hd, hden, hcal, hp, hc2, hf2⟩
  have hcls : classify_message (.parsed (.jobj fields)) =
      .ok (.food { confidence := conf, food_description := desc,
                   calories := cal.num, protein := pyRound1 p,
                   carbs := pyRound1 c, fat := pyRound1 f }) := by
    unfold classify_message
    dsimp only
    rw [h_type]
    simp [hval]
  rcases hg : s.get_or_create_user tid with ⟨u, s1⟩
  have hins : (s.insert_food_log now tid desc cal.num
      (pyRound1 p) (pyRound1 c) (pyRound1 f)).1 =
      { id := s1.next_id, user_id := u.id, food_description := desc,
        calories := cal.num, protein := pyRound1 p, carbs := pyRound1 c,
        fat := pyRound1 f, created_at := now } := by
    unfold Store.insert_food_log
    rw [hg]
  refine ⟨hcls, ⟨?_, ?_, ?_, ?_⟩, ⟨pyRound1_one_decimal p, pyRound1_one_decimal c,
    pyRound1_one_decimal f⟩, pyRound1_abs_le p, pyRound1_abs_le c, pyRound1_abs_le f⟩ <;>
    rw [hins]

/-- Witness for C4: the oatmeal payload (350 kcal, 10 g protein, 60 g
carbs, 8 g fat, confidence 0.9) classifies to the rounded, unchanged
values. -/
theorem c4_food_rounding_witness :
    classify_message (.parsed (.jobj
      [("type", .jstr "food"), ("confidence", .jnum (9/10)),
       ("food_description", .jstr "oatmeal"),
       ("calories", .jnum ((350 : ℤ) : ℚ)), ("protein", .jnum 10),
       ("carbs", .jnum 60), ("fat", .jnum 8)])) =
      .ok (.food { confidence := 9/10, food_description := "oatmeal",
                   calories := ((350 : ℤ) : ℚ).num, protein := pyRound1 10,
                   carbs := pyRound1 60, fat := pyRound1 8 }) :=
  (c4_food_rounding
    [("type", .jstr "food"), ("confidence", .jnum (9/10)),
     ("food_description", .jstr "oatmeal"),
     ("calories", .jnum ((350 : ℤ) : ℚ)), ("protein", .jnum 10),
     ("carbs", .jnum 60), ("fat", .jnum 8)]
    (9/10) ((350 : ℤ) : ℚ) 10 60 8 "oatmeal"
    rfl rfl rfl rfl rfl rfl rfl
    (by norm_num) (by norm_num) (by decide)
    (by simp) (by norm_num) (by norm_num) (by norm_num) (by norm_num)
    {} 0 1).1

theorem containsSubstr_of_eq (s pre pat post : String)
    (h : s = pre ++ (pat ++ post)) : containsSubstr s pat = true := by
  subst h
  have h2 := containsSubstr_of_append pre pat post
  rw [String.append_assoc] at h2
  exact h2

theorem decStr1_intCast (n : ℤ) :
    decStr1 ((n : ℤ) : ℚ) = toString n ++ "." ++ "0" := by
  unfold decStr1
  have h : (((n : ℤ) : ℚ) * 10).num = n * 10 := by
    have : ((n : ℤ) : ℚ) * 10 = ((n * 10 : ℤ) : ℚ) := by push_cast; ring
    rw [this, Rat.num_intCast]
  rw [h]
  dsimp only
  rw [Int.mul_ediv_cancel n (by norm_num), Int.mul_emod_left]
  rfl

theorem startsWithChars_append (p u v : List Char)
    (h : startsWithChars p u = true) : startsWithChars p (u ++ v) = true := by
  induction p generalizing u with
  | nil => simp [startsWithChars]
  | cons a ps ih =>
      cases u with
      | nil => simp [startsWithChars] at h
      | cons b us =>
          simp only [startsWithChars, Bool.and_eq_true] at h
          simp only [List.cons_append, startsWithChars, Bool.and_eq_true]
          exact ⟨h.1, ih us h.2⟩

theorem containsSubstr_append_right (s t pat : String)
    (h : containsSubstr s pat = true) : containsSubstr (s ++ t) pat = true := by
  unfold containsSubstr at h ⊢
  rw [List.any_eq_true] at h ⊢
  obtain ⟨u, hu, hp⟩ := h
  rw [List.mem_tails] at hu
  refine ⟨u ++ t.data, ?_, startsWithChars_append _ _ _ hp⟩
  rw [List.mem_tails, String.data_append]
  obtain ⟨w, hw⟩ := hu
  exact ⟨w, by rw [← List.append_assoc, hw]⟩

theorem containsSubstr_suffix (x pat : String) :
    containsSubstr (x ++ pat) pat = true := by
  have h := containsSubstr_of_append x pat ""
  simpa using h

theorem contains_rem_of_targetLine (b : String) (t T : ℤ) :
    containsSubstr (b ++ calorieTargetLine t T) (toString (t - T).natAbs) = true := by
  unfold calorieTargetLine
  apply containsSubstr_of_eq _ (b ++ (" / " ++ toString t ++ " ("))
    (toString (t - T).natAbs) (if 0 ≤ t - T then " left)" else " over ⚠️)")
  simp [String.append_assoc]

theorem contains_target_of_gramLine (b : String) (lbl : String) (total target : ℚ) :
    containsSubstr (b ++ gramLine lbl total target) (decStr1 target) = true := by
  unfold gramLine
  apply containsSubstr_of_eq _ (b ++ (lbl ++ ": " ++ decStr1 total ++ "g / "))
    (decStr1 target)
    ("g (" ++ (if pyRound1 (target - total) ≤ 0 then "✅"
      else decStr1 (pyRound1 (target - total)) ++ "g left") ++ ")")
  simp [String.append_assoc]

/-- C3 (amended): in the webhook router the food confirmation is built
from the day's nutrition re-read **after** the insert — the total it
reports equals the pre-existing same-day total plus the just-logged
calories — and when the owner's calorie target is set (truthy) the text
contains the remaining/over amount `|target - postWriteTotal|`; when all
macro targets are set the text also compares against them (it renders
the protein target).  (The polling router's confirmation carries no
target comparison; see the counterexample.) -/
theorem c3_webhook_food_reply_amended (s : Store) (now tid : ℤ) (d : FoodData) :
    (((s.insert_food_log now tid d.food_description d.calories d.protein d.carbs
        d.fat).2.get_daily_nutrition tid (tsDay now)).1.total_calories =
      (s.get_daily_nutrition tid (tsDay now)).1.total_calories + d.calories) ∧
    (∀ t : ℤ, (s.get_or_create_user tid).1.daily_calorie_target = some t → t ≠ 0 →
      containsSubstr (webhook_handle_food s now tid d).1.text
        (toString ((t - ((s.get_daily_nutrition tid (tsDay now)).1.total_calories +
          d.calories)).natAbs)) = true) ∧
    (∀ pt ct ft : ℚ, (s.get_or_create_user tid).1.protein_target = some pt →
      (s.get_or_create_user tid).1.carbs_target = some ct →
      (s.get_or_create_user tid).1.fat_target = some ft →
      hasAllGramTargets (s.get_or_create_user tid).1 = true →
      containsSubstr (webhook_handle_food s now tid d).1.text (decStr1 pt) = true) := by
  rcases hgo : s.get_or_create_user tid with ⟨u, sg⟩
  have hfood_sg : sg.food_logs = s.food_logs := by
    have h := get_or_create_user_food_logs s tid
    rw [hgo] at h
    exact h
  have hfind_sg : sg.users.find? (fun r => r.telegram_id == tid) = some u := by
    have h := get_or_create_user_find_after s tid
    rw [hgo] at h
    exact h
  rcases hins : s.insert_food_log now tid d.food_description d.calories d.protein
      d.carbs d.fat with ⟨row, s1⟩
  have hfl : s1.food_logs = sg.food_logs ++
      [{ id := sg.next_id, user_id := u.id, food_description := d.food_description,
         calories := d.calories, protein := d.protein, carbs := d.carbs,
         fat := d.fat, created_at := now }] := by
    have h : (s.insert_food_log now tid d.food_description d.calories d.protein
        d.carbs d.fat).2.food_logs = sg.food_logs ++
        [{ id := sg.next_id, user_id := u.id, food_description := d.food_description,
           calories := d.calories, protein := d.protein, carbs := d.carbs,
           fat := d.fat, created_at := now }] := by
      unfold Store.insert_food_log
      rw [hgo]
    rw [hins] at h
    exact h
  have husers : s1.users = sg.users := by
    have h : (s.insert_food_log now tid d.food_description d.calories d.protein
        d.carbs d.fat).2.users = sg.users := by
      unfold Store.insert_food_log
      rw [hgo]
    rw [hins] at h
    exact h
  have hfind_s1 : s1.users.find? (fun r => r.telegram_id == tid) = some u := by
    rw [husers]
    exact hfind_sg
  have hgocu1 : s1.get_or_create_user tid = (u, s1) :=
    get_or_create_user_of_found _ _ _ hfind_s1
  rcases hnu : s1.get_daily_nutrition tid (tsDay now) with ⟨nut, s2⟩
  have hs2 : s2 = s1 := by
    have h : (s1.get_daily_nutrition tid (tsDay now)).2 = s1 := by
      unfold Store.get_daily_nutrition
      rw [hgocu1]
    rw [hnu] at h
    exact h
  have hgocu2 : s2.get_or_create_user tid = (u, s2) := by
    rw [hs2]
    exact hgocu1
  have hb := (tsDay_eq_iff now (tsDay now)).mp rfl
  have hnut_total : nut.total_calories =
      ((s.food_logs.filter (fun r => r.user_id == u.id &&
        startOfDay (tsDay now) ≤ r.created_at &&
        r.created_at ≤ endOfDay (tsDay now))).map (·.calories)).sum + d.calories := by
    have h : (s1.get_daily_nutrition tid (tsDay now)).1.total_calories =
        ((s1.food_logs.filter (fun r => r.user_id == u.id &&
          startOfDay (tsDay now) ≤ r.created_at &&
          r.created_at ≤ endOfDay (tsDay now))).map (·.calories)).sum := by
      unfold Store.get_daily_nutrition
      rw [hgocu1]
    rw [hnu] at h
    rw [h, hfl, hfood_sg, List.filter_append]
    simp [hb.1, hb.2]
  have htot0 : (s.get_daily_nutrition tid (tsDay now)).1.total_calories =
      ((s.food_logs.filter (fun r => r.user_id == u.id &&
        startOfDay (tsDay now) ≤ r.created_at &&
        r.created_at ≤ endOfDay (tsDay now))).map (·.calories)).sum := by
    unfold Store.get_daily_nutrition
    rw [hgo]
    dsimp only
    rw [hfood_sg]
  have htot1 : nut.total_calories =
      (s.get_daily_nutrition tid (tsDay now)).1.total_calories + d.calories := by
    rw [hnut_total, htot0]
  have hreply : (webhook_handle_food s now tid d).1.text =
      (let base :=
        "🍽️ *Logged:* " ++ d.food_description ++ "\n\n• " ++
        toString d.calories ++ " kcal | P:" ++ decStr1 d.protein ++
        "g C:" ++ decStr1 d.carbs ++ "g F:" ++ decStr1 d.fat ++
        "g\n\n*Today so far:* " ++ toString nut.total_calories ++ " kcal"
      let withTarget :=
        match u.daily_calorie_target with
        | some t => if t = 0 then base
                    else base ++ calorieTargetLine t nut.total_calories
        | none => base
      match u.protein_target, u.carbs_target, u.fat_target with
      | some pt, some ct, some ft =>
          if hasAllGramTargets u then
            withTarget ++ "\n" ++ gramLine "P" nut.total_protein pt ++
            "\n" ++ gramLine "C" nut.total_carbs ct ++
            "\n" ++ gramLine "F" nut.total_fat ft ++
            "\n\n_Use /recommend for what to eat next_"
          else withTarget
      | _, _, _ => withTarget) := by
    unfold webhook_handle_food
    rw [hins]
    dsimp only
    rw [hnu]
    dsimp only
    rw [hgocu2]
  refine ⟨?_, ?_, ?_⟩
  · exact htot1
  · intro t ht htz
    rw [hreply]
    dsimp only
    rw [ht]
    dsimp only
    simp only [if_neg htz]
    rw [← htot1]
    split
    · rename_i pt ct ft
      split
      · exact containsSubstr_append_right _ _ _ (containsSubstr_append_right _ _ _
          (containsSubstr_append_right _ _ _ (containsSubstr_append_right _ _ _
            (containsSubstr_append_right _ _ _ (containsSubstr_append_right _ _ _
              (containsSubstr_append_right _ _ _
                (contains_rem_of_targetLine _ t nut.total_calories)))))))
      · exact contains_rem_of_targetLine _ t nut.total_calories
    · exact contains_rem_of_targetLine _ t nut.total_calories
  · intro pt ct ft hpt hct hft hall
    rw [hreply]
    dsimp only
    rw [hpt, hct, hft]
    dsimp only
    rw [if_pos hall]
    exact containsSubstr_append_right _ _ _ (containsSubstr_append_right _ _ _
      (containsSubstr_append_right _ _ _ (containsSubstr_append_right _ _ _
        (containsSubstr_append_right _ _ _ (contains_target_of_gramLine _ "P"
          nut.total_protein pt)))))

/-- C3 counterexample: the polling router (`bot.handle_message`) builds
the food confirmation without any comparison against the profile
targets: in the 2000-target / 350-kcal scenario its reply contains
neither "1650" nor "2000" — the claim fails for this router. -/
theorem c3_polling_reply_counterexample :
    (bot_handle_food
      { users := [{ id := 0, telegram_id := 1, daily_calorie_target := some 2000 }],
        next_id := 1 } 43200000000 1
      { confidence := 9/10, food_description := "oatmeal", calories := 350,
        protein := ((10 : ℤ) : ℚ), carbs := ((60 : ℤ) : ℚ),
        fat := ((8 : ℤ) : ℚ) }).1.text =
      "🍽️ *Logged:* oatmeal\n\n• 350 kcal\n• Protein: 10.0g · Carbs: 60.0g · Fat: 8.0g\n\n*Today's total:* 350 kcal (1 entries)" ∧
    containsSubstr (bot_handle_food
      { users := [{ id := 0, telegram_id := 1, daily_calorie_target := some 2000 }],
        next_id := 1 } 43200000000 1
      { confidence := 9/10, food_description := "oatmeal", calories := 350,
        protein := ((10 : ℤ) : ℚ), carbs := ((60 : ℤ) : ℚ),
        fat := ((8 : ℤ) : ℚ) }).1.text "1650" = false ∧
    containsSubstr (bot_handle_food
      { users := [{ id := 0, telegram_id := 1, daily_calorie_target := some 2000 }],
        next_id := 1 } 43200000000 1
      { confidence := 9/10, food_description := "oatmeal", calories := 350,
        protein := ((10 : ℤ) : ℚ), carbs := ((60 : ℤ) : ℚ),
        fat := ((8 : ℤ) : ℚ) }).1.text "2000" = false := by
  have htext : (bot_handle_food
      { users := [{ id := 0, telegram_id := 1, daily_calorie_target := some 2000 }],
        next_id := 1 } 43200000000 1
      { confidence := 9/10, food_description := "oatmeal", calories := 350,
        protein := ((10 : ℤ) : ℚ), carbs := ((60 : ℤ) : ℚ),
        fat := ((8 : ℤ) : ℚ) }).1.text =
      "🍽️ *Logged:* oatmeal\n\n• 350 kcal\n• Protein: 10.0g · Carbs: 60.0g · Fat: 8.0g\n\n*Today's total:* 350 kcal (1 entries)" := by
    simp only [bot_handle_food, Store.insert_food_log, Store.get_daily_nutrition,
      Store.get_or_create_user, List.find?, decStr1_intCast]
    norm_num [List.filter, startOfDay, endOfDay, tsDay, ticksPerDay]
    rfl
  refine ⟨htext, ?_, ?_⟩ <;> rw [htext] <;> decide

/-- Witness for C3 (amended): the oatmeal scenario — target 2000, no
other entries that day, 350 kcal logged — produces a webhook reply
containing the remaining calories `1650`. -/
theorem c3_webhook_food_reply_amended_witness :
    containsSubstr (webhook_handle_food
      { users := [{ id := 0, telegram_id := 1, daily_calorie_target := some 2000 }],
        next_id := 1 } 43200000000 1
      { confidence := 9/10, food_description := "oatmeal", calories := 350,
        protein := ((10 : ℤ) : ℚ), carbs := ((60 : ℤ) : ℚ),
        fat := ((8 : ℤ) : ℚ) }).1.text "1650" = true := by
  have h := (c3_webhook_food_reply_amended
    { users := [{ id := 0, telegram_id := 1, daily_calorie_target := some 2000 }],
      next_id := 1 } 43200000000 1
    { confidence := 9/10, food_description := "oatmeal", calories := 350,
      protein := ((10 : ℤ) : ℚ), carbs := ((60 : ℤ) : ℚ),
      fat := ((8 : ℤ) : ℚ) }).2.1 2000 rfl (by decide)
  have hpre : (({ users := [{ id := 0, telegram_id := 1, daily_calorie_target := some 2000 }], next_id := 1 } : Store).get_daily_nutrition 1 (tsDay 43200000000)).1.total_calories = 0 := by
    simp [Store.get_daily_nutrition, Store.get_or_create_user, List.find?]
  rw [hpre] at h
  rw [show ((2000 : ℤ) - (0 + 350)).natAbs = 1650 from by decide] at h
  exact h

theorem QuestionData_validate_some_iff (fields : List (String × JsonVal)) :
    (∃ d, QuestionData.validate fields = some d) ↔ QuestionPayloadValid fields := by
  unfold QuestionData.validate QuestionPayloadValid
  split
  · rename_i conf ans h1 h2
    constructor
    · rintro ⟨d, hd⟩
      split at hd
      · rename_i hP
        exact ⟨conf, ans, h1, h2, hP.1, hP.2.1, hP.2.2⟩
      · simp at hd
    · rintro ⟨conf', ans', h1', h2', hc0, hc1, hlen⟩
      rw [h1] at h1'
      rw [h2] at h2'
      simp only [Option.some.injEq, JsonVal.jnum.injEq, JsonVal.jstr.injEq] at h1' h2'
      subst h1'
      subst h2'
      exact ⟨_, by rw [if_pos ⟨hc0, hc1, hlen⟩]⟩
  · rename_i hne
    constructor
    · rintro ⟨d, hd⟩
      simp at hd
    · rintro ⟨conf, ans, h1, h2, -⟩
      exact (hne conf ans h1 h2).elim

theorem NoteData_validate_some_iff (fields : List (String × JsonVal)) :
    (∃ d, NoteData.validate fields = some d) ↔ NotePayloadValid fields := by
  unfold NoteData.validate NotePayloadValid
  split
  · rename_i conf content summary tags h1 h2 h3 h4
    constructor
    · rintro ⟨d, hd⟩
      split at hd
      · rename_i hP
        exact ⟨conf, content, summary, tags, h1, h2, h3, h4,
          hP.1, hP.2.1, hP.2.2.1, hP.2.2.2⟩
      · simp at hd
    · rintro ⟨conf', content', summary', tags', h1', h2', h3', h4', hc0, hc1, hl1, hl2⟩
      rw [h1] at h1'
      rw [h2] at h2'
      rw [h3] at h3'
      rw [h4] at h4'
      simp only [Option.some.injEq, JsonVal.jnum.injEq, JsonVal.jstr.injEq]
        at h1' h2' h3' h4'
      subst h1'
      subst h2'
      subst h3'
      subst h4'
      exact ⟨_, by rw [if_pos ⟨hc0, hc1, hl1, hl2⟩]⟩
  · rename_i hne
    constructor
    · rintro ⟨d, hd⟩
      simp at hd
    · rintro ⟨conf, content, summary, tags, h1, h2, h3, h4, -⟩
      exact (hne conf content summary tags h1 h2 h3 h4).elim

theorem FoodData_validate_some_iff (fields : List (String × JsonVal)) :
    (∃ d, FoodData.validate fields = some d) ↔ FoodPayloadValid fields := by
  unfold FoodData.validate FoodPayloadValid
  split
  · rename_i conf desc cal p c f h1 h2 h3 h4 h5 h6
    constructor
    · rintro ⟨d, hd⟩
      split at hd
      · rename_i hP
        exact ⟨conf, cal, p, c, f, desc, h1, h2, h3, h4, h5, h6,
          hP.1, hP.2.1, hP.2.2.1, hP.2.2.2.1, hP.2.2.2.2.1,
          hP.2.2.2.2.2.1, hP.2.2.2.2.2.2.1, hP.2.2.2.2.2.2.2⟩
      · simp at hd
    · rintro ⟨conf', cal', p', c', f', desc', h1', h2', h3', h4', h5', h6',
        hc0, hc1, hl, hden, hcal, hp, hc2, hf2⟩
      rw [h1] at h1'
      rw [h2] at h2'
      rw [h3] at h3'
      rw [h4] at h4'
      rw [h5] at h5'
      rw [h6] at h6'
      simp only [Option.some.injEq, JsonVal.jnum.injEq, JsonVal.jstr.injEq]
        at h1' h2' h3' h4' h5' h6'
      subst h1'
      subst h2'
      subst h3'
      subst h4'
      subst h5'
      subst h6'
      exact ⟨_, by rw [if_pos ⟨hc0, hc1, hl, hden, hcal, hp, hc2, hf2⟩]⟩
  · rename_i hne
    constructor
    · rintro ⟨d, hd⟩
      simp at hd
    · rintro ⟨conf, cal, p, c, f, desc, h1, h2, h3, h4, h5, h6, -⟩
      exact (hne conf desc cal p c f h1 h2 h3 h4 h5 h6).elim

theorem WorkoutData_validate_some_iff (fields : List (String × JsonVal)) :
    (∃ d, WorkoutData.validate fields = some d) ↔ WorkoutPayloadValid fields := by
  unfold WorkoutData.validate WorkoutPayloadValid
  split
  · rename_i conf act dur dist wnotes h1 h2 h3 h4 h5
    constructor
    · rintro ⟨d, hd⟩
      split at hd
      · rename_i hP
        exact ⟨conf, dur, act, dist, wnotes, h1, h2, h3, h4, h5,
          hP.1, hP.2.1, hP.2.2.1, hP.2.2.2.1, hP.2.2.2.2.1, hP.2.2.2.2.2⟩
      · simp at hd
    · rintro ⟨conf', dur', act', dist', wnotes', h1', h2', h3', h4', h5',
        hc0, hc1, hl, hden, hdur, hdist⟩
      rw [h1] at h1'
      rw [h2] at h2'
      rw [h3] at h3'
      rw [h4] at h4'
      rw [h5] at h5'
      simp only [Option.some.injEq, JsonVal.jnum.injEq, JsonVal.jstr.injEq]
        at h1' h2' h3' h4' h5'
      subst h1'
      subst h2'
      subst h3'
      subst h4'
      subst h5'
      exact ⟨_, by rw [if_pos ⟨hc0, hc1, hl, hden, hdur, hdist⟩]⟩
  · rename_i hne
    constructor
    · rintro ⟨d, hd⟩
      simp at hd
    · rintro ⟨conf, dur, act, dist, wnotes, h1, h2, h3, h4, h5, -⟩
      exact (hne conf act dur dist wnotes h1 h2 h3 h4 h5).elim

theorem option_none_iff_not {α : Type} {P : Prop} (o : Option α)
    (h : (∃ a, o = some a) ↔ P) : o = none ↔ ¬P := by
  cases o with
  | none => simp_all
  | some a =>
      simp only [Option.some.injEq] at h ⊢
      constructor
      · intro hx
        exact absurd hx (by simp)
      · intro hnp
        exact (hnp (h.mp ⟨a, rfl⟩)).elim

theorem classify_question_iff (fields : List (String × JsonVal))
    (ht : getField fields "type" = some (.jstr "question")) :
    (classify_message (.parsed (.jobj fields)) = .error .validationFailed ↔
      ¬QuestionPayloadValid fields) ∧
    ((∃ d, classify_message (.parsed (.jobj fields)) = .ok (.question d)) ↔
      QuestionPayloadValid fields) := by
  cases hv : QuestionData.validate fields with
  | some d =>
      have hc : classify_message (.parsed (.jobj fields)) = .ok (.question d) := by
        unfold classify_message
        dsimp only
        rw [ht]
        simp [hv]
      have hp : QuestionPayloadValid fields :=
        (QuestionData_validate_some_iff fields).mp ⟨d, hv⟩
      exact ⟨by simp [hc, hp], by simp [hc, hp]⟩
  | none =>
      have hc : classify_message (.parsed (.jobj fields)) =
          .error .validationFailed := by
        unfold classify_message
        dsimp only
        rw [ht]
        simp [hv]
      have hnp : ¬QuestionPayloadValid fields :=
        (option_none_iff_not _ (QuestionData_validate_some_iff fields)).mp hv
      exact ⟨by simp [hc, hnp], by simp [hc, hnp]⟩

theorem classify_note_iff (fields : List (String × JsonVal))
    (ht : getField fields "type" = some (.jstr "note")) :
    (classify_message (.parsed (.jobj fields)) = .error .validationFailed ↔
      ¬NotePayloadValid fields) ∧
    ((∃ d, classify_message (.parsed (.jobj fields)) = .ok (.note d)) ↔
      NotePayloadValid fields) := by
  cases hv : NoteData.validate fields with
  | some d =>
      have hc : classify_message (.parsed (.jobj fields)) = .ok (.note d) := by
        unfold classify_message
        dsimp only
        rw [ht]
        simp [hv]
      have hp : NotePayloadValid fields :=
        (NoteData_validate_some_iff fields).mp ⟨d, hv⟩
      exact ⟨by simp [hc, hp], by simp [hc, hp]⟩
  | none =>
      have hc : classify_message (.parsed (.jobj fields)) =
          .error .validationFailed := by
        unfold classify_message
        dsimp only
        rw [ht]
        simp [hv]
      have hnp : ¬NotePayloadValid fields :=
        (option_none_iff_not _ (NoteData_validate_some_iff fields)).mp hv
      exact ⟨by simp [hc, hnp], by simp [hc, hnp]⟩

theorem classify_food_iff (fields : List (String × JsonVal))
    (ht : getField fields "type" = some (.jstr "food")) :
    (classify_message (.parsed (.jobj fields)) = .error .validationFailed ↔
      ¬FoodPayloadValid fields) ∧
    ((∃ d, classify_message (.parsed (.jobj fields)) = .ok (.food d)) ↔
      FoodPayloadValid fields) := by
  cases hv : FoodData.validate fields with
  | some d =>
      have hc : classify_message (.parsed (.jobj fields)) = .ok (.food d) := by
        unfold classify_message
        dsimp only
        rw [ht]
        simp [hv]
      have hp : FoodPayloadValid fields :=
        (FoodData_validate_some_iff fields).mp ⟨d, hv⟩
      exact ⟨by simp [hc, hp], by simp [hc, hp]⟩
  | none =>
      have hc : classify_message (.parsed (.jobj fields)) =
          .error .validationFailed := by
        unfold classify_message
        dsimp only
        rw [ht]
        simp [hv]
      have hnp : ¬FoodPayloadValid fields :=
        (option_none_iff_not _ (FoodData_validate_some_iff fields)).mp hv
      exact ⟨by simp [hc, hnp], by simp [hc, hnp]⟩

theorem classify_workout_iff (fields : List (String × JsonVal))
    (ht : getField fields "type" = some (.jstr "workout")) :
    (classify_message (.parsed (.jobj fields)) = .error .validationFailed ↔
      ¬WorkoutPayloadValid fields) ∧
    ((∃ d, classify_message (.parsed (.jobj fields)) = .ok (.workout d)) ↔
      WorkoutPayloadValid fields) := by
  cases hv : WorkoutData.validate fields with
  | some d =>
      have hc : classify_message (.parsed (.jobj fields)) = .ok (.workout d) := by
        unfold classify_message
        dsimp only
        rw [ht]
        simp [hv]
      have hp : WorkoutPayloadValid fields :=
        (WorkoutData_validate_some_iff fields).mp ⟨d, hv⟩
      exact ⟨by simp [hc, hp], by simp [hc, hp]⟩
  | none =>
      have hc : classify_message (.parsed (.jobj fields)) =
          .error .validationFailed := by
        unfold classify_message
        dsimp only
        rw [ht]
        simp [hv]
      have hnp : ¬WorkoutPayloadValid fields :=
        (option_none_iff_not _ (WorkoutData_validate_some_iff fields)).mp hv
      exact ⟨by simp [hc, hnp], by simp [hc, hnp]⟩

theorem classify_obj_ne_invalid (fields : List (String × JsonVal)) :
    classify_message (.parsed (.jobj fields)) ≠ .error .invalidJson := by
  unfold classify_message
  dsimp only
  split <;> (try split) <;> simp

theorem classify_obj_ne_attr (fields : List (String × JsonVal)) :
    classify_message (.parsed (.jobj fields)) ≠ .error .attributeAccessFailed := by
  unfold classify_message
  dsimp only
  split <;> (try split) <;> simp

theorem classify_unknown_iff (fields : List (String × JsonVal)) :
    (∃ t, classify_message (.parsed (.jobj fields)) = .error (.unknownType t)) ↔
      recognizedType (getField fields "type") = false := by
  unfold classify_message
  dsimp only
  split
  · rename_i heq
    cases hv : QuestionData.validate fields <;> simp [hv, recognizedType, heq]
  · rename_i heq
    cases hv : NoteData.validate fields <;> simp [hv, recognizedType, heq]
  · rename_i heq
    cases hv : FoodData.validate fields <;> simp [hv, recognizedType, heq]
  · rename_i heq
    cases hv : WorkoutData.validate fields <;> simp [hv, recognizedType, heq]
  · constructor
    · intro _
      unfold recognizedType
      split <;> simp_all
    · intro _
      exact ⟨_, rfl⟩

/-- C2 counterexample: the JSON response `[]` parses successfully but is
not an object, so `data.get("type")` raises `AttributeError` — the
failure is neither the unknown-type `ValueError` the claim's partition
demands for an absent discriminator, nor the parse-error `ValueError`. -/
theorem c2_nonobject_counterexample :
    classify_message (.parsed (.jarr [])) = .error .attributeAccessFailed ∧
    classify_message (.parsed (.jarr [])) ≠ .error (.unknownType none) ∧
    classify_message (.parsed (.jarr [])) ≠ .error .invalidJson := by
  refine ⟨rfl, ?_, ?_⟩ <;> simp [classify_message]

/-- C2 (amended): `classify_message` fails with the invalid-JSON
`ValueError` (ClassificationParseError) exactly on an unparseable
response; on a parseable non-object it fails with an `AttributeError`
outside the declared error taxonomy; on an object it fails with the
unknown-type `ValueError` (ClassificationUnknownTypeError) exactly when
the `type` discriminator is absent or not one of the four recognized
values; and for each recognized discriminator it fails with a pydantic
`ValidationError` (ClassificationSchemaError) exactly when the payload
misses a required field or violates a field constraint, otherwise
returning the corresponding typed variant. -/
theorem c2_classify_error_partition :
    (∀ r : OracleResponse,
      classify_message r = .error .invalidJson ↔ r = .unparseable) ∧
    (∀ v : JsonVal,
      classify_message (.parsed v) = .error .attributeAccessFailed ↔
        v.isObj = false) ∧
    (∀ fields : List (String × JsonVal),
      (∃ t, classify_message (.parsed (.jobj fields)) = .error (.unknownType t)) ↔
        recognizedType (getField fields "type") = false) ∧
    (∀ fields : List (String × JsonVal),
      getField fields "type" = some (.jstr "question") →
      ((classify_message (.parsed (.jobj fields)) = .error .validationFailed ↔
          ¬QuestionPayloadValid fields) ∧
        ((∃ d, classify_message (.parsed (.jobj fields)) = .ok (.question d)) ↔
          QuestionPayloadValid fields))) ∧
    (∀ fields : List (String × JsonVal),
      getField fields "type" = some (.jstr "note") →
      ((classify_message (.parsed (.jobj fields)) = .error .validationFailed ↔
          ¬NotePayloadValid fields) ∧
        ((∃ d, classify_message (.parsed (.jobj fields)) = .ok (.note d)) ↔
          NotePayloadValid fields))) ∧
    (∀ fields : List (String × JsonVal),
      getField fields "type" = some (.jstr "food") →
      ((classify_message (.parsed (.jobj fields)) = .error .validationFailed ↔
          ¬FoodPayloadValid fields) ∧
        ((∃ d, classify_message (.parsed (.jobj fields)) = .ok (.food d)) ↔
          FoodPayloadValid fields))) ∧
    (∀ fields : List (String × JsonVal),
      getField fields "type" = some (.jstr "workout") →
      ((classify_message (.parsed (.jobj fields)) = .error .validationFailed ↔
          ¬WorkoutPayloadValid fields) ∧
        ((∃ d, classify_message (.parsed (.jobj fields)) = .ok (.workout d)) ↔
          WorkoutPayloadValid fields))) := by
  refine ⟨?_, ?_, classify_unknown_iff, classify_question_iff, classify_note_iff,
    classify_food_iff, classify_workout_iff⟩
  · intro r
    cases r with
    | unparseable => simp [classify_message]
    | parsed v =>
        constructor
        · intro h
          cases v with
          | jobj fields => exact absurd h (classify_obj_ne_invalid fields)
          | jnull => simp [classify_message] at h
          | jbool b => simp [classify_message] at h
          | jnum q => simp [classify_message] at h
          | jstr str => simp [classify_message] at h
          | jarr xs => simp [classify_message] at h
        · intro h
          simp at h
  · intro v
    cases v with
    | jobj fields =>
        simp only [JsonVal.isObj]
        constructor
        · intro h
          exact absurd h (classify_obj_ne_attr fields)
        · intro h
          simp at h
    | jnull => simp [classify_message, JsonVal.isObj]
    | jbool b => simp [classify_message, JsonVal.isObj]
    | jnum q => simp [classify_message, JsonVal.isObj]
    | jstr str => simp [classify_message, JsonVal.isObj]
    | jarr xs => simp [classify_message, JsonVal.isObj]

/-- Witness for C2 (amended): an object payload with a recognized `food`
discriminator but a missing required field fails with the pydantic
ValidationError (ClassificationSchemaError). -/
theorem c2_classify_error_partition_witness :
    classify_message (.parsed (.jobj [("type", .jstr "food")])) =
      .error .validationFailed := by
  have h := (c2_classify_error_partition).2.2.2.2.2.1 [("type", .jstr "food")] rfl
  refine h.1.mpr ?_
  rintro ⟨conf, cal, p, c, f, desc, h1, -⟩
  simp [getField, List.find?] at h1
